import Mathlib

/-
  Verification development for the gr-signal-hound GNURadio blocks
  (bb_series_impl.cc, sm_series_impl.cc, sp_series_impl.cc,
  vsg_series_impl.cc).

  Shallow embedding conventions:
  * C++ `double` parameters are only stored and forwarded by the adapters
    (no floating-point arithmetic is ever performed on them), so they are
    carried by `Int`, which preserves every observable use (storage,
    copying, passing to the vendor API).
  * `std::complex<float>` samples are likewise only stored and copied, so a
    sample is an opaque pair of carriers.
  * The vendor SDK (bb_api / sm_api / sp_api / vsg_api) is external: each
    vendor call is modelled by the status it returns and the data it writes,
    supplied as an oracle structure (`BBDev`, ...).  The success constants
    `bbNoError` etc. are defined by the external vendor headers as 0; only
    their ordering relative to other statuses matters here.
  * `abort()` terminates the process; an execution is modelled as aborted
    when `abort()` is reached, and the model records the state, the vendor
    calls issued, and the runtime buffer contents at that point.
  * Mutex scopes are transcribed statement-group by statement-group into
    `LockedStep` lists: each entry records whether `_mutex` is held
    (`gr::thread::scoped_lock`) while that group executes.
-/

/-- Carrier for C++ `double` parameters (stored and forwarded only). -/
abbrev CDouble := Int

/-- One `std::complex<float>` sample (stored and copied only). -/
abbrev Sample := Int × Int

/-- The zero sample: `new std::complex<float>[n]` value-initialises to 0. -/
def sampleZero : Sample := (0, 0)

/-- What a single `ERROR_CHECK` call prints. -/
inductive PrintKind
  | warning
  | error
deriving DecidableEq, Repr

/-- Observable outcome of one `ERROR_CHECK` call: what was printed (the
message text, produced by the external `bbGetErrorString` and relatives, is
abstracted to its kind) and whether `abort()` was reached. -/
structure CheckOutcome where
  printed : Option PrintKind
  aborted : Bool
deriving DecidableEq, Repr

/-- `ERROR_CHECK` from bb_series_impl.cc lines 23-33.  The sm/sp/vsg copies
have identical logic; sm and vsg additionally interpolate the vendor call
name into the printed message, which is abstracted away with the message
text.  `noError` is the vendor success constant the status is compared
against (`bbNoError`, `smNoError`, `spNoError`, `vsgNoError`). -/
def ERROR_CHECK (noError status : Int) : CheckOutcome :=
  if status ≠ noError then
    { printed := some (if noError < status then PrintKind.warning else PrintKind.error),
      aborted := !(decide (noError < status)) }
  else
    { printed := none, aborted := false }

/-- `bbNoError` from the external bb_api.h header (value 0 there; only its
ordering role is used by the wrapper). -/
def bbNoError : Int := 0

/-- `smNoError` from the external sm_api.h header. -/
def smNoError : Int := 0

/-- `spNoError` from the external sp_api.h header. -/
def spNoError : Int := 0

/-- `vsgNoError` from the external vsg_api.h header. -/
def vsgNoError : Int := 0

/- ------------------------------------------------------------------ -/
/- Lock-scope transcription                                            -/
/- ------------------------------------------------------------------ -/

/-- The statement groups of the adapters that touch shared state. -/
inductive StepKind
  | writeField    -- a setter writing its parameter field
  | setDirty      -- `_param_changed = true` in a setter
  | readDirty     -- `if(_param_changed)` at the top of `work`
  | pushParams    -- the body of `configure()` (vendor configure calls)
  | clearDirty    -- `_param_changed = false` in `work`
  | allocBuffer   -- transfer-buffer (re)allocation in `work`
  | deviceRead    -- the blocking bbGetIQUnpacked / smGetIQ / spGetIQ call
  | deviceWrite   -- vsgSubmitIQ / vsgFlush in the generator's `work`
  | copyOut       -- the copy loop into the runtime output buffer
deriving DecidableEq, Repr

/-- One statement group together with whether `_mutex` is held while it
executes (transcribed from the `gr::thread::scoped_lock` scopes). -/
structure LockedStep where
  kind : StepKind
  lockHeld : Bool
deriving DecidableEq, Repr

/- ------------------------------------------------------------------ -/
/- Shared buffer helpers                                               -/
/- ------------------------------------------------------------------ -/

/-- The copy loop `for(i = 0; i < n; i++) out[i] = buffer[i];` on a runtime
output buffer modelled as a list (`List.set` ignores out-of-range indices,
matching that the runtime guarantees the buffer holds `n` items). -/
def copyLoop (buffer : List Sample) (n : Nat) (out : List Sample) : List Sample :=
  (List.range n).foldl (fun o i => o.set i (buffer.getD i sampleZero)) out

/-- The `n` samples a blocking vendor read writes into the transfer buffer,
given the device's sample stream `iq`. -/
def deviceSamples (iq : Nat → Sample) (n : Nat) : List Sample :=
  (List.range n).map iq

/- ------------------------------------------------------------------ -/
/- BB adapter (bb_series_impl.cc)                                      -/
/- ------------------------------------------------------------------ -/

/-- The member state of `bb_series_impl` (bb_series_impl.h lines 18-30;
`_handle` and `_mutex` carry no wrapper-visible data and are omitted;
`_buffer`/`_len` are the transfer buffer and its allocated length). -/
structure BBState where
  center : CDouble
  reflevel : CDouble
  decimation : Int
  bandwidth : CDouble
  purge : Bool
  param_changed : Bool
  buffer : Option (List Sample)
  len : Int
deriving DecidableEq, Repr

/-- The member-initialiser list of the `bb_series_impl` constructor
(bb_series_impl.cc lines 46-54). -/
def bb_init (center reflevel : CDouble) (decimation : Int) (bandwidth : CDouble)
    (purge : Bool) : BBState :=
  { center := center, reflevel := reflevel, decimation := decimation,
    bandwidth := bandwidth, purge := purge, param_changed := true,
    buffer := none, len := 0 }

/-- Statuses returned by the vendor calls the bb constructor makes. -/
structure BBCtorDev where
  stOpenDevice : Int
  stGetSerialNumber : Int
deriving DecidableEq, Repr

/-- The `bb_series_impl` constructor body: `ERROR_CHECK(bbOpenDevice(..))`
then `ERROR_CHECK(bbGetSerialNumber(..))`; `none` models the process
aborting inside `ERROR_CHECK` (construction does not complete). -/
def bb_construct (d : BBCtorDev) (center reflevel : CDouble) (decimation : Int)
    (bandwidth : CDouble) (purge : Bool) : Option BBState :=
  if (ERROR_CHECK bbNoError d.stOpenDevice).aborted then none
  else if (ERROR_CHECK bbNoError d.stGetSerialNumber).aborted then none
  else some (bb_init center reflevel decimation bandwidth purge)

/-- `bb_series_impl::set_center` (lines 79-84). -/
def bb_set_center (center : CDouble) (s : BBState) : BBState :=
  { s with center := center, param_changed := true }

/-- `bb_series_impl::set_reflevel` (lines 86-91). -/
def bb_set_reflevel (reflevel : CDouble) (s : BBState) : BBState :=
  { s with reflevel := reflevel, param_changed := true }

/-- `bb_series_impl::set_decimation` (lines 93-98). -/
def bb_set_decimation (decimation : Int) (s : BBState) : BBState :=
  { s with decimation := decimation, param_changed := true }

/-- `bb_series_impl::set_bandwidth` (lines 100-105). -/
def bb_set_bandwidth (bandwidth : CDouble) (s : BBState) : BBState :=
  { s with bandwidth := bandwidth, param_changed := true }

/-- `bb_series_impl::set_purge` (lines 107-111).  Note: the source updates
`_purge` under the lock but does not set `_param_changed`. -/
def bb_set_purge (purge : Bool) (s : BBState) : BBState :=
  { s with purge := purge }

/-- Lock scope of `set_center`: both statements run under `scoped_lock`. -/
def bb_set_center_steps : List LockedStep :=
  [⟨StepKind.writeField, true⟩, ⟨StepKind.setDirty, true⟩]

/-- Lock scope of `set_reflevel`. -/
def bb_set_reflevel_steps : List LockedStep :=
  [⟨StepKind.writeField, true⟩, ⟨StepKind.setDirty, true⟩]

/-- Lock scope of `set_decimation`. -/
def bb_set_decimation_steps : List LockedStep :=
  [⟨StepKind.writeField, true⟩, ⟨StepKind.setDirty, true⟩]

/-- Lock scope of `set_bandwidth`. -/
def bb_set_bandwidth_steps : List LockedStep :=
  [⟨StepKind.writeField, true⟩, ⟨StepKind.setDirty, true⟩]

/-- Lock scope of `set_purge`: one field write under the lock, and no
`setDirty` statement at all (lines 107-111). -/
def bb_set_purge_steps : List LockedStep :=
  [⟨StepKind.writeField, true⟩]

/-- Lock scopes of `bb_series_impl::work` (lines 133-161) in execution
order: `work` itself takes no lock; only the body of `configure()`
(lines 113-131) runs under `scoped_lock`.  In particular the dirty-marker
test (line 140) and clear (line 142) execute with the mutex free. -/
def bb_work_steps : List LockedStep :=
  [⟨StepKind.readDirty, false⟩, ⟨StepKind.pushParams, true⟩,
   ⟨StepKind.clearDirty, false⟩, ⟨StepKind.allocBuffer, false⟩,
   ⟨StepKind.deviceRead, false⟩, ⟨StepKind.copyOut, false⟩]

/-- Statuses and data returned by the vendor calls `configure` and `work`
make, one field per call site. -/
structure BBDev where
  stConfigureIQCenter : Int
  stConfigureRefLevel : Int
  stConfigureIQ : Int
  stConfigureIQDataType : Int
  stInitiate : Int
  stQueryIQParameters : Int
  stGetIQUnpacked : Int
  sampleRate : CDouble       -- reported by bbQueryIQParameters (printed only)
  actualBandwidth : CDouble  -- reported by bbQueryIQParameters (printed only)
  iq : Nat → Sample          -- samples bbGetIQUnpacked writes into the buffer

/-- Vendor device calls issued by the bb adapter, with the arguments the
wrapper passes. -/
inductive BBCall
  | configureIQCenter (center : CDouble)
  | configureRefLevel (reflevel : CDouble)
  | configureIQ (decimation : Int) (bandwidth : CDouble)
  | configureIQDataType
  | initiate
  | queryIQParameters
  | getIQUnpacked (count : Nat) (purge : Bool)
deriving DecidableEq, Repr

/-- `bb_series_impl::configure` (lines 113-131): push every parameter, then
initiate streaming, then query the achieved rate/bandwidth, each wrapped in
`ERROR_CHECK`.  Returns whether `abort()` was reached and the vendor calls
issued (in order, up to the aborting one). -/
def bb_configure (d : BBDev) (s : BBState) : Bool × List BBCall :=
  if (ERROR_CHECK bbNoError d.stConfigureIQCenter).aborted then
    (true, [BBCall.configureIQCenter s.center])
  else if (ERROR_CHECK bbNoError d.stConfigureRefLevel).aborted then
    (true, [BBCall.configureIQCenter s.center, BBCall.configureRefLevel s.reflevel])
  else if (ERROR_CHECK bbNoError d.stConfigureIQ).aborted then
    (true, [BBCall.configureIQCenter s.center, BBCall.configureRefLevel s.reflevel,
            BBCall.configureIQ s.decimation s.bandwidth])
  else if (ERROR_CHECK bbNoError d.stConfigureIQDataType).aborted then
    (true, [BBCall.configureIQCenter s.center, BBCall.configureRefLevel s.reflevel,
            BBCall.configureIQ s.decimation s.bandwidth, BBCall.configureIQDataType])
  else if (ERROR_CHECK bbNoError d.stInitiate).aborted then
    (true, [BBCall.configureIQCenter s.center, BBCall.configureRefLevel s.reflevel,
            BBCall.configureIQ s.decimation s.bandwidth, BBCall.configureIQDataType,
            BBCall.initiate])
  else if (ERROR_CHECK bbNoError d.stQueryIQParameters).aborted then
    (true, [BBCall.configureIQCenter s.center, BBCall.configureRefLevel s.reflevel,
            BBCall.configureIQ s.decimation s.bandwidth, BBCall.configureIQDataType,
            BBCall.initiate, BBCall.queryIQParameters])
  else
    (false, [BBCall.configureIQCenter s.center, BBCall.configureRefLevel s.reflevel,
             BBCall.configureIQ s.decimation s.bandwidth, BBCall.configureIQDataType,
             BBCall.initiate, BBCall.queryIQParameters])

/-- Observable outcome of one `bb_series_impl::work` invocation. -/
structure BBWorkResult where
  aborted : Bool           -- whether abort() was reached during the call
  state : BBState          -- member state when the call ends (or aborts)
  out : List Sample        -- the runtime output buffer when the call ends
  ret : Option Nat         -- value returned to the runtime (none if aborted)
  reconfigured : Bool      -- whether configure() ran this invocation
  reallocated : Bool       -- whether the transfer buffer was (re)allocated
  calls : List BBCall      -- vendor calls issued, in order

/-- The tail of `bb_series_impl::work` after the reconfiguration step
(lines 145-160): conditional buffer reallocation, the blocking
`bbGetIQUnpacked` read (which writes `noutput_items` samples into the
transfer buffer before its status is checked), and the copy loop. -/
def bb_work_tail (d : BBDev) (n : Nat) (s : BBState) (out : List Sample)
    (reconfigured : Bool) (tr : List BBCall) : BBWorkResult :=
  let realloc : Bool := s.buffer.isNone || !(decide ((n : Int) = s.len))
  let s1 : BBState :=
    if realloc then { s with buffer := some (List.replicate n sampleZero), len := (n : Int) }
    else s
  let s2 : BBState := { s1 with buffer := some (deviceSamples d.iq n) }
  let tr2 : List BBCall := tr ++ [BBCall.getIQUnpacked n s.purge]
  if (ERROR_CHECK bbNoError d.stGetIQUnpacked).aborted then
    { aborted := true, state := s2, out := out, ret := none,
      reconfigured := reconfigured, reallocated := realloc, calls := tr2 }
  else
    { aborted := false, state := s2, out := copyLoop (deviceSamples d.iq n) n out,
      ret := some n, reconfigured := reconfigured, reallocated := realloc, calls := tr2 }

/-- `bb_series_impl::work` (lines 133-161): reconfigure if the dirty marker
is set (clearing it afterwards), then the allocation / read / copy tail. -/
def bb_work (d : BBDev) (n : Nat) (s : BBState) (out : List Sample) : BBWorkResult :=
  if s.param_changed then
    if (bb_configure d s).1 then
      { aborted := true, state := s, out := out, ret := none,
        reconfigured := true, reallocated := false, calls := (bb_configure d s).2 }
    else
      bb_work_tail d n { s with param_changed := false } out true (bb_configure d s).2
  else
    bb_work_tail d n s out false []

/- ------------------------------------------------------------------ -/
/- SM adapter (sm_series_impl.cc)                                      -/
/- ------------------------------------------------------------------ -/

/-- The member state of `sm_series_impl` (fields per sm_series_impl.cc
lines 52-62; `_purge`/`_swfilter` are stored as SmBool, carried as Bool). -/
structure SMState where
  center : CDouble
  reflevel : CDouble
  atten : Int
  decimation : Int
  bandwidth : CDouble
  purge : Bool
  swfilter : Bool
  param_changed : Bool
  buffer : Option (List Sample)
  len : Int
deriving DecidableEq, Repr

/-- The member-initialiser list of the `sm_series_impl` constructor
(lines 52-62). -/
def sm_init (center reflevel : CDouble) (atten decimation : Int)
    (swfilter purge : Bool) (bandwidth : CDouble) : SMState :=
  { center := center, reflevel := reflevel, atten := atten,
    decimation := decimation, bandwidth := bandwidth, purge := purge,
    swfilter := swfilter, param_changed := true, buffer := none, len := 0 }

/-- Statuses returned by the vendor calls the sm constructor makes. -/
structure SMCtorDev where
  stOpenDevice : Int
  stGetDeviceInfo : Int
deriving DecidableEq, Repr

/-- The `sm_series_impl` constructor body: `ERROR_CHECK` around
`smOpenDevice` and `smGetDeviceInfo`; `none` models an abort. -/
def sm_construct (d : SMCtorDev) (center reflevel : CDouble) (atten decimation : Int)
    (swfilter purge : Bool) (bandwidth : CDouble) : Option SMState :=
  if (ERROR_CHECK smNoError d.stOpenDevice).aborted then none
  else if (ERROR_CHECK smNoError d.stGetDeviceInfo).aborted then none
  else some (sm_init center reflevel atten decimation swfilter purge bandwidth)

/-- `sm_series_impl::set_center` (lines 86-91). -/
def sm_set_center (center : CDouble) (s : SMState) : SMState :=
  { s with center := center, param_changed := true }

/-- `sm_series_impl::set_reflevel` (lines 93-98). -/
def sm_set_reflevel (reflevel : CDouble) (s : SMState) : SMState :=
  { s with reflevel := reflevel, param_changed := true }

/-- `sm_series_impl::set_atten` (lines 100-105). -/
def sm_set_atten (atten : Int) (s : SMState) : SMState :=
  { s with atten := atten, param_changed := true }

/-- `sm_series_impl::set_decimation` (lines 107-112). -/
def sm_set_decimation (decimation : Int) (s : SMState) : SMState :=
  { s with decimation := decimation, param_changed := true }

/-- `sm_series_impl::set_bandwidth` (lines 114-119). -/
def sm_set_bandwidth (bandwidth : CDouble) (s : SMState) : SMState :=
  { s with bandwidth := bandwidth, param_changed := true }

/-- `sm_series_impl::set_swfilter` (lines 121-126). -/
def sm_set_swfilter (swfilter : Bool) (s : SMState) : SMState :=
  { s with swfilter := swfilter, param_changed := true }

/-- `sm_series_impl::set_purge` (lines 128-132).  As in the bb adapter the
source updates `_purge` under the lock but does not set `_param_changed`. -/
def sm_set_purge (purge : Bool) (s : SMState) : SMState :=
  { s with purge := purge }

/-- Lock scope of `sm_set_center` (scoped_lock around both statements). -/
def sm_set_center_steps : List LockedStep :=
  [⟨StepKind.writeField, true⟩, ⟨StepKind.setDirty, true⟩]

/-- Lock scope of `sm_set_reflevel`. -/
def sm_set_reflevel_steps : List LockedStep :=
  [⟨StepKind.writeField, true⟩, ⟨StepKind.setDirty, true⟩]

/-- Lock scope of `sm_set_atten`. -/
def sm_set_atten_steps : List LockedStep :=
  [⟨StepKind.writeField, true⟩, ⟨StepKind.setDirty, true⟩]

/-- Lock scope of `sm_set_decimation`. -/
def sm_set_decimation_steps : List LockedStep :=
  [⟨StepKind.writeField, true⟩, ⟨StepKind.setDirty, true⟩]

/-- Lock scope of `sm_set_bandwidth`. -/
def sm_set_bandwidth_steps : List LockedStep :=
  [⟨StepKind.writeField, true⟩, ⟨StepKind.setDirty, true⟩]

/-- Lock scope of `sm_set_swfilter`. -/
def sm_set_swfilter_steps : List LockedStep :=
  [⟨StepKind.writeField, true⟩, ⟨StepKind.setDirty, true⟩]

/-- Lock scope of `sm_set_purge`: one field write, no dirty-marker write. -/
def sm_set_purge_steps : List LockedStep :=
  [⟨StepKind.writeField, true⟩]

/-- Lock scopes of `sm_series_impl::work` (lines 156-184): identical shape
to the bb adapter — only `configure()`'s body holds the lock. -/
def sm_work_steps : List LockedStep :=
  [⟨StepKind.readDirty, false⟩, ⟨StepKind.pushParams, true⟩,
   ⟨StepKind.clearDirty, false⟩, ⟨StepKind.allocBuffer, false⟩,
   ⟨StepKind.deviceRead, false⟩, ⟨StepKind.copyOut, false⟩]

/-- Statuses and data returned by the vendor calls `sm_series_impl`'s
`configure` and `work` make. -/
structure SMDev where
  stSetIQDataType : Int
  stSetIQCenterFreq : Int
  stSetIQSampleRate : Int
  stSetRefLevel : Int
  stSetAttenuator : Int
  stSetIQBandwidth : Int
  stConfigure : Int
  stGetIQParameters : Int
  stGetIQ : Int
  sampleRate : CDouble
  actualBandwidth : CDouble
  iq : Nat → Sample

/-- Vendor device calls issued by the sm adapter, with arguments. -/
inductive SMCall
  | setIQDataType
  | setIQCenterFreq (center : CDouble)
  | setIQSampleRate (decimation : Int)
  | setRefLevel (reflevel : CDouble)
  | setAttenuator (atten : Int)
  | setIQBandwidth (swfilter : Bool) (bandwidth : CDouble)
  | smConfigure
  | getIQParameters
  | getIQ (count : Nat) (purge : Bool)
deriving DecidableEq, Repr

/-- `sm_series_impl::configure` (lines 134-154). -/
def sm_configure (d : SMDev) (s : SMState) : Bool × List SMCall :=
  if (ERROR_CHECK smNoError d.stSetIQDataType).aborted then
    (true, [SMCall.setIQDataType])
  else if (ERROR_CHECK smNoError d.stSetIQCenterFreq).aborted then
    (true, [SMCall.setIQDataType, SMCall.setIQCenterFreq s.center])
  else if (ERROR_CHECK smNoError d.stSetIQSampleRate).aborted then
    (true, [SMCall.setIQDataType, SMCall.setIQCenterFreq s.center,
            SMCall.setIQSampleRate s.decimation])
  else if (ERROR_CHECK smNoError d.stSetRefLevel).aborted then
    (true, [SMCall.setIQDataType, SMCall.setIQCenterFreq s.center,
            SMCall.setIQSampleRate s.decimation, SMCall.setRefLevel s.reflevel])
  else if (ERROR_CHECK smNoError d.stSetAttenuator).aborted then
    (true, [SMCall.setIQDataType, SMCall.setIQCenterFreq s.center,
            SMCall.setIQSampleRate s.decimation, SMCall.setRefLevel s.reflevel,
            SMCall.setAttenuator s.atten])
  else if (ERROR_CHECK smNoError d.stSetIQBandwidth).aborted then
    (true, [SMCall.setIQDataType, SMCall.setIQCenterFreq s.center,
            SMCall.setIQSampleRate s.decimation, SMCall.setRefLevel s.reflevel,
            SMCall.setAttenuator s.atten, SMCall.setIQBandwidth s.swfilter s.bandwidth])
  else if (ERROR_CHECK smNoError d.stConfigure).aborted then
    (true, [SMCall.setIQDataType, SMCall.setIQCenterFreq s.center,
            SMCall.setIQSampleRate s.decimation, SMCall.setRefLevel s.reflevel,
            SMCall.setAttenuator s.atten, SMCall.setIQBandwidth s.swfilter s.bandwidth,
            SMCall.smConfigure])
  else if (ERROR_CHECK smNoError d.stGetIQParameters).aborted then
    (true, [SMCall.setIQDataType, SMCall.setIQCenterFreq s.center,
            SMCall.setIQSampleRate s.decimation, SMCall.setRefLevel s.reflevel,
            SMCall.setAttenuator s.atten, SMCall.setIQBandwidth s.swfilter s.bandwidth,
            SMCall.smConfigure, SMCall.getIQParameters])
  else
    (false, [SMCall.setIQDataType, SMCall.setIQCenterFreq s.center,
             SMCall.setIQSampleRate s.decimation, SMCall.setRefLevel s.reflevel,
             SMCall.setAttenuator s.atten, SMCall.setIQBandwidth s.swfilter s.bandwidth,
             SMCall.smConfigure, SMCall.getIQParameters])

/-- Observable outcome of one `sm_series_impl::work` invocation. -/
structure SMWorkResult where
  aborted : Bool
  state : SMState
  out : List Sample
  ret : Option Nat
  reconfigured : Bool
  reallocated : Bool
  calls : List SMCall

/-- The tail of `sm_series_impl::work` after the reconfiguration step
(lines 168-183): buffer reallocation, blocking `smGetIQ`, copy loop. -/
def sm_work_tail (d : SMDev) (n : Nat) (s : SMState) (out : List Sample)
    (reconfigured : Bool) (tr : List SMCall) : SMWorkResult :=
  let realloc : Bool := s.buffer.isNone || !(decide ((n : Int) = s.len))
  let s1 : SMState :=
    if realloc then { s with buffer := some (List.replicate n sampleZero), len := (n : Int) }
    else s
  let s2 : SMState := { s1 with buffer := some (deviceSamples d.iq n) }
  let tr2 : List SMCall := tr ++ [SMCall.getIQ n s.purge]
  if (ERROR_CHECK smNoError d.stGetIQ).aborted then
    { aborted := true, state := s2, out := out, ret := none,
      reconfigured := reconfigured, reallocated := realloc, calls := tr2 }
  else
    { aborted := false, state := s2, out := copyLoop (deviceSamples d.iq n) n out,
      ret := some n, reconfigured := reconfigured, reallocated := realloc, calls := tr2 }

/-- `sm_series_impl::work` (lines 156-184). -/
def sm_work (d : SMDev) (n : Nat) (s : SMState) (out : List Sample) : SMWorkResult :=
  if s.param_changed then
    if (sm_configure d s).1 then
      { aborted := true, state := s, out := out, ret := none,
        reconfigured := true, reallocated := false, calls := (sm_configure d s).2 }
    else
      sm_work_tail d n { s with param_changed := false } out true (sm_configure d s).2
  else
    sm_work_tail d n s out false []

/- ------------------------------------------------------------------ -/
/- SP adapter (sp_series_impl.cc)                                      -/
/- ------------------------------------------------------------------ -/

/-- The member state of `sp_series_impl` (sp_series_impl.cc lines 52-62). -/
structure SPState where
  center : CDouble
  reflevel : CDouble
  atten : Int
  decimation : Int
  bandwidth : CDouble
  purge : Bool
  swfilter : Bool
  param_changed : Bool
  buffer : Option (List Sample)
  len : Int
deriving DecidableEq, Repr

/-- The member-initialiser list of the `sp_series_impl` constructor
(lines 52-62). -/
def sp_init (reflevel : CDouble) (atten : Int) (center : CDouble)
    (decimation : Int) (swfilter : Bool) (bandwidth : CDouble)
    (purge : Bool) : SPState :=
  { center := center, reflevel := reflevel, atten := atten,
    decimation := decimation, bandwidth := bandwidth, purge := purge,
    swfilter := swfilter, param_changed := true, buffer := none, len := 0 }

/-- Statuses returned by the vendor calls the sp constructor makes. -/
structure SPCtorDev where
  stOpenDevice : Int
  stGetSerialNumber : Int
deriving DecidableEq, Repr

/-- The `sp_series_impl` constructor body: `ERROR_CHECK` around
`spOpenDevice` and `spGetSerialNumber`; `none` models an abort. -/
def sp_construct (d : SPCtorDev) (reflevel : CDouble) (atten : Int)
    (center : CDouble) (decimation : Int) (swfilter : Bool)
    (bandwidth : CDouble) (purge : Bool) : Option SPState :=
  if (ERROR_CHECK spNoError d.stOpenDevice).aborted then none
  else if (ERROR_CHECK spNoError d.stGetSerialNumber).aborted then none
  else some (sp_init reflevel atten center decimation swfilter bandwidth purge)

/-- `sp_series_impl::set_center` (lines 86-91). -/
def sp_set_center (center : CDouble) (s : SPState) : SPState :=
  { s with center := center, param_changed := true }

/-- `sp_series_impl::set_reflevel` (lines 93-98). -/
def sp_set_reflevel (reflevel : CDouble) (s : SPState) : SPState :=
  { s with reflevel := reflevel, param_changed := true }

/-- `sp_series_impl::set_atten` (lines 100-105). -/
def sp_set_atten (atten : Int) (s : SPState) : SPState :=
  { s with atten := atten, param_changed := true }

/-- `sp_series_impl::set_decimation` (lines 107-112). -/
def sp_set_decimation (decimation : Int) (s : SPState) : SPState :=
  { s with decimation := decimation, param_changed := true }

/-- `sp_series_impl::set_bandwidth` (lines 114-119). -/
def sp_set_bandwidth (bandwidth : CDouble) (s : SPState) : SPState :=
  { s with bandwidth := bandwidth, param_changed := true }

/-- `sp_series_impl::set_swfilter` (lines 121-126). -/
def sp_set_swfilter (swfilter : Bool) (s : SPState) : SPState :=
  { s with swfilter := swfilter, param_changed := true }

/-- `sp_series_impl::set_purge` (lines 128-132): updates `_purge` under the
lock but does not set `_param_changed`. -/
def sp_set_purge (purge : Bool) (s : SPState) : SPState :=
  { s with purge := purge }

/-- Lock scope of `sp_set_center`. -/
def sp_set_center_steps : List LockedStep :=
  [⟨StepKind.writeField, true⟩, ⟨StepKind.setDirty, true⟩]

/-- Lock scope of `sp_set_reflevel`. -/
def sp_set_reflevel_steps : List LockedStep :=
  [⟨StepKind.writeField, true⟩, ⟨StepKind.setDirty, true⟩]

/-- Lock scope of `sp_set_atten`. -/
def sp_set_atten_steps : List LockedStep :=
  [⟨StepKind.writeField, true⟩, ⟨StepKind.setDirty, true⟩]

/-- Lock scope of `sp_set_decimation`. -/
def sp_set_decimation_steps : List LockedStep :=
  [⟨StepKind.writeField, true⟩, ⟨StepKind.setDirty, true⟩]

/-- Lock scope of `sp_set_bandwidth`. -/
def sp_set_bandwidth_steps : List LockedStep :=
  [⟨StepKind.writeField, true⟩, ⟨StepKind.setDirty, true⟩]

/-- Lock scope of `sp_set_swfilter`. -/
def sp_set_swfilter_steps : List LockedStep :=
  [⟨StepKind.writeField, true⟩, ⟨StepKind.setDirty, true⟩]

/-- Lock scope of `sp_set_purge`: one field write, no dirty-marker write. -/
def sp_set_purge_steps : List LockedStep :=
  [⟨StepKind.writeField, true⟩]

/-- Lock scopes of `sp_series_impl::work` (lines 157-185): only
`configure()`'s body holds the lock. -/
def sp_work_steps : List LockedStep :=
  [⟨StepKind.readDirty, false⟩, ⟨StepKind.pushParams, true⟩,
   ⟨StepKind.clearDirty, false⟩, ⟨StepKind.allocBuffer, false⟩,
   ⟨StepKind.deviceRead, false⟩, ⟨StepKind.copyOut, false⟩]

/-- Statuses and data returned by the vendor calls `sp_series_impl`'s
`configure` and `work` make. -/
structure SPDev where
  stSetIQDataType : Int
  stSetIQCenterFreq : Int
  stSetIQSampleRate : Int
  stSetIQSoftwareFilter : Int
  stSetRefLevel : Int
  stSetAttenuator : Int
  stSetIQBandwidth : Int
  stConfigure : Int
  stGetIQParameters : Int
  stGetIQ : Int
  sampleRate : CDouble
  actualBandwidth : CDouble
  iq : Nat → Sample

/-- Vendor device calls issued by the sp adapter, with arguments. -/
inductive SPCall
  | setIQDataType
  | setIQCenterFreq (center : CDouble)
  | setIQSampleRate (decimation : Int)
  | setIQSoftwareFilter (swfilter : Bool)
  | setRefLevel (reflevel : CDouble)
  | setAttenuator (atten : Int)
  | setIQBandwidth (bandwidth : CDouble)
  | spConfigure
  | getIQParameters
  | getIQ (count : Nat) (purge : Bool)
deriving DecidableEq, Repr

/-- `sp_series_impl::configure` (lines 134-155). -/
def sp_configure (d : SPDev) (s : SPState) : Bool × List SPCall :=
  if (ERROR_CHECK spNoError d.stSetIQDataType).aborted then
    (true, [SPCall.setIQDataType])
  else if (ERROR_CHECK spNoError d.stSetIQCenterFreq).aborted then
    (true, [SPCall.setIQDataType, SPCall.setIQCenterFreq s.center])
  else if (ERROR_CHECK spNoError d.stSetIQSampleRate).aborted then
    (true, [SPCall.setIQDataType, SPCall.setIQCenterFreq s.center,
            SPCall.setIQSampleRate s.decimation])
  else if (ERROR_CHECK spNoError d.stSetIQSoftwareFilter).aborted then
    (true, [SPCall.setIQDataType, SPCall.setIQCenterFreq s.center,
            SPCall.setIQSampleRate s.decimation, SPCall.setIQSoftwareFilter s.swfilter])
  else if (ERROR_CHECK spNoError d.stSetRefLevel).aborted then
    (true, [SPCall.setIQDataType, SPCall.setIQCenterFreq s.center,
            SPCall.setIQSampleRate s.decimation, SPCall.setIQSoftwareFilter s.swfilter,
            SPCall.setRefLevel s.reflevel])
  else if (ERROR_CHECK spNoError d.stSetAttenuator).aborted then
    (true, [SPCall.setIQDataType, SPCall.setIQCenterFreq s.center,
            SPCall.setIQSampleRate s.decimation, SPCall.setIQSoftwareFilter s.swfilter,
            SPCall.setRefLevel s.reflevel, SPCall.setAttenuator s.atten])
  else if (ERROR_CHECK spNoError d.stSetIQBandwidth).aborted then
    (true, [SPCall.setIQDataType, SPCall.setIQCenterFreq s.center,
            SPCall.setIQSampleRate s.decimation, SPCall.setIQSoftwareFilter s.swfilter,
            SPCall.setRefLevel s.reflevel, SPCall.setAttenuator s.atten,
            SPCall.setIQBandwidth s.bandwidth])
  else if (ERROR_CHECK spNoError d.stConfigure).aborted then
    (true, [SPCall.setIQDataType, SPCall.setIQCenterFreq s.center,
            SPCall.setIQSampleRate s.decimation, SPCall.setIQSoftwareFilter s.swfilter,
            SPCall.setRefLevel s.reflevel, SPCall.setAttenuator s.atten,
            SPCall.setIQBandwidth s.bandwidth, SPCall.spConfigure])
  else if (ERROR_CHECK spNoError d.stGetIQParameters).aborted then
    (true, [SPCall.setIQDataType, SPCall.setIQCenterFreq s.center,
            SPCall.setIQSampleRate s.decimation, SPCall.setIQSoftwareFilter s.swfilter,
            SPCall.setRefLevel s.reflevel, SPCall.setAttenuator s.atten,
            SPCall.setIQBandwidth s.bandwidth, SPCall.spConfigure,
            SPCall.getIQParameters])
  else
    (false, [SPCall.setIQDataType, SPCall.setIQCenterFreq s.center,
             SPCall.setIQSampleRate s.decimation, SPCall.setIQSoftwareFilter s.swfilter,
             SPCall.setRefLevel s.reflevel, SPCall.setAttenuator s.atten,
             SPCall.setIQBandwidth s.bandwidth, SPCall.spConfigure,
             SPCall.getIQParameters])

/-- Observable outcome of one `sp_series_impl::work` invocation. -/
structure SPWorkResult where
  aborted : Bool
  state : SPState
  out : List Sample
  ret : Option Nat
  reconfigured : Bool
  reallocated : Bool
  calls : List SPCall

/-- The tail of `sp_series_impl::work` after the reconfiguration step
(lines 169-184). -/
def sp_work_tail (d : SPDev) (n : Nat) (s : SPState) (out : List Sample)
    (reconfigured : Bool) (tr : List SPCall) : SPWorkResult :=
  let realloc : Bool := s.buffer.isNone || !(decide ((n : Int) = s.len))
  let s1 : SPState :=
    if realloc then { s with buffer := some (List.replicate n sampleZero), len := (n : Int) }
    else s
  let s2 : SPState := { s1 with buffer := some (deviceSamples d.iq n) }
  let tr2 : List SPCall := tr ++ [SPCall.getIQ n s.purge]
  if (ERROR_CHECK spNoError d.stGetIQ).aborted then
    { aborted := true, state := s2, out := out, ret := none,
      reconfigured := reconfigured, reallocated := realloc, calls := tr2 }
  else
    { aborted := false, state := s2, out := copyLoop (deviceSamples d.iq n) n out,
      ret := some n, reconfigured := reconfigured, reallocated := realloc, calls := tr2 }

/-- `sp_series_impl::work` (lines 157-185). -/
def sp_work (d : SPDev) (n : Nat) (s : SPState) (out : List Sample) : SPWorkResult :=
  if s.param_changed then
    if (sp_configure d s).1 then
      { aborted := true, state := s, out := out, ret := none,
        reconfigured := true, reallocated := false, calls := (sp_configure d s).2 }
    else
      sp_work_tail d n { s with param_changed := false } out true (sp_configure d s).2
  else
    sp_work_tail d n s out false []

/- ------------------------------------------------------------------ -/
/- VSG adapter (vsg_series_impl.cc)                                    -/
/- ------------------------------------------------------------------ -/

/-- The C++ `(int16_t)` conversion applied to `_ioffset`/`_qoffset` when
they are handed to `vsgSetIQOffset` (wrap-around two's-complement). -/
def int16OfInt (x : Int) : Int :=
  (x + 32768) % 65536 - 32768

/-- The member state of `vsg_series_impl` (vsg_series_impl.h lines 19-29). -/
structure VSGState where
  center : CDouble
  samplerate : CDouble
  level : CDouble
  ioffset : Int
  qoffset : Int
  param_changed : Bool
  buffer : Option (List Sample)
  len : Int
deriving DecidableEq, Repr

/-- The member-initialiser list of the `vsg_series_impl` constructor
(vsg_series_impl.cc lines 49-57): note `_buffer` is initialised to null and
`_len` to 0, and no other statement of the class ever assigns them. -/
def vsg_init (center samplerate level : CDouble) (ioffset qoffset : Int) : VSGState :=
  { center := center, samplerate := samplerate, level := level,
    ioffset := ioffset, qoffset := qoffset, param_changed := true,
    buffer := none, len := 0 }

/-- Statuses returned by the vendor calls the vsg constructor makes. -/
structure VSGCtorDev where
  stOpenDevice : Int
  stGetSerialNumber : Int
deriving DecidableEq, Repr

/-- The `vsg_series_impl` constructor body: `ERROR_CHECK` around
`vsgOpenDevice` and `vsgGetSerialNumber`; `none` models an abort. -/
def vsg_construct (d : VSGCtorDev) (center samplerate level : CDouble)
    (ioffset qoffset : Int) : Option VSGState :=
  if (ERROR_CHECK vsgNoError d.stOpenDevice).aborted then none
  else if (ERROR_CHECK vsgNoError d.stGetSerialNumber).aborted then none
  else some (vsg_init center samplerate level ioffset qoffset)

/-- `vsg_series_impl::set_center` (lines 105-110). -/
def vsg_set_center (center : CDouble) (s : VSGState) : VSGState :=
  { s with center := center, param_changed := true }

/-- `vsg_series_impl::set_level` (lines 112-117). -/
def vsg_set_level (level : CDouble) (s : VSGState) : VSGState :=
  { s with level := level, param_changed := true }

/-- `vsg_series_impl::set_samplerate` (lines 119-124). -/
def vsg_set_samplerate (samplerate : CDouble) (s : VSGState) : VSGState :=
  { s with samplerate := samplerate, param_changed := true }

/-- `vsg_series_impl::set_ioffset` (lines 127-132). -/
def vsg_set_ioffset (ioffset : Int) (s : VSGState) : VSGState :=
  { s with ioffset := ioffset, param_changed := true }

/-- `vsg_series_impl::set_qoffset` (lines 134-139). -/
def vsg_set_qoffset (qoffset : Int) (s : VSGState) : VSGState :=
  { s with qoffset := qoffset, param_changed := true }

/-- Lock scope of `vsg_set_center`. -/
def vsg_set_center_steps : List LockedStep :=
  [⟨StepKind.writeField, true⟩, ⟨StepKind.setDirty, true⟩]

/-- Lock scope of `vsg_set_level`. -/
def vsg_set_level_steps : List LockedStep :=
  [⟨StepKind.writeField, true⟩, ⟨StepKind.setDirty, true⟩]

/-- Lock scope of `vsg_set_samplerate`. -/
def vsg_set_samplerate_steps : List LockedStep :=
  [⟨StepKind.writeField, true⟩, ⟨StepKind.setDirty, true⟩]

/-- Lock scope of `vsg_set_ioffset`. -/
def vsg_set_ioffset_steps : List LockedStep :=
  [⟨StepKind.writeField, true⟩, ⟨StepKind.setDirty, true⟩]

/-- Lock scope of `vsg_set_qoffset`. -/
def vsg_set_qoffset_steps : List LockedStep :=
  [⟨StepKind.writeField, true⟩, ⟨StepKind.setDirty, true⟩]

/-- Lock scopes of `vsg_series_impl::work` (lines 142-158): only
`configure()`'s body (lines 69-91) holds the lock; the dirty-marker test
and clear, and the submit/flush calls, run with the mutex free. -/
def vsg_work_steps : List LockedStep :=
  [⟨StepKind.readDirty, false⟩, ⟨StepKind.pushParams, true⟩,
   ⟨StepKind.clearDirty, false⟩, ⟨StepKind.deviceWrite, false⟩]

/-- Statuses and data returned by the vendor calls `vsg_series_impl`'s
`configure` and `work` make.  `stSubmitIQ` and `stFlush` are the return
statuses of `vsgSubmitIQ` and `vsgFlush`; the source discards them (work,
lines 153-154, has no ERROR_CHECK around either call). -/
structure VSGDev where
  stSetFrequency : Int
  stSetSampleRate : Int
  stSetLevel : Int
  stSetIQOffset : Int
  stGetFrequency : Int
  stGetSampleRate : Int
  stGetLevel : Int
  stGetIQOffset : Int
  actualFrequency : CDouble   -- reported by vsgGetFrequency (printed only)
  actualSampleRate : CDouble  -- reported by vsgGetSampleRate (printed only)
  actualLevel : CDouble       -- reported by vsgGetLevel (printed only)
  actualIOffset : Int         -- reported by vsgGetIQOffset (printed only)
  actualQOffset : Int         -- reported by vsgGetIQOffset (printed only)
  stSubmitIQ : Int
  stFlush : Int
deriving DecidableEq, Repr

/-- Vendor device calls issued by the vsg adapter, with the arguments the
wrapper passes; `submitIQ` carries the exact sample list handed to the
device (the runtime input buffer, passed by pointer without a copy). -/
inductive VSGCall
  | setFrequency (center : CDouble)
  | setSampleRate (samplerate : CDouble)
  | setLevel (level : CDouble)
  | setIQOffset (ioffset qoffset : Int)
  | getFrequency
  | getSampleRate
  | getLevel
  | getIQOffset
  | submitIQ (data : List Sample) (count : Nat)
  | flush
deriving DecidableEq, Repr

/-- `vsg_series_impl::configure` (lines 69-91): push the four parameters,
then read back and log the achieved values, each wrapped in ERROR_CHECK. -/
def vsg_configure (d : VSGDev) (s : VSGState) : Bool × List VSGCall :=
  if (ERROR_CHECK vsgNoError d.stSetFrequency).aborted then
    (true, [VSGCall.setFrequency s.center])
  else if (ERROR_CHECK vsgNoError d.stSetSampleRate).aborted then
    (true, [VSGCall.setFrequency s.center, VSGCall.setSampleRate s.samplerate])
  else if (ERROR_CHECK vsgNoError d.stSetLevel).aborted then
    (true, [VSGCall.setFrequency s.center, VSGCall.setSampleRate s.samplerate,
            VSGCall.setLevel s.level])
  else if (ERROR_CHECK vsgNoError d.stSetIQOffset).aborted then
    (true, [VSGCall.setFrequency s.center, VSGCall.setSampleRate s.samplerate,
            VSGCall.setLevel s.level,
            VSGCall.setIQOffset (int16OfInt s.ioffset) (int16OfInt s.qoffset)])
  else if (ERROR_CHECK vsgNoError d.stGetFrequency).aborted then
    (true, [VSGCall.setFrequency s.center, VSGCall.setSampleRate s.samplerate,
            VSGCall.setLevel s.level,
            VSGCall.setIQOffset (int16OfInt s.ioffset) (int16OfInt s.qoffset),
            VSGCall.getFrequency])
  else if (ERROR_CHECK vsgNoError d.stGetSampleRate).aborted then
    (true, [VSGCall.setFrequency s.center, VSGCall.setSampleRate s.samplerate,
            VSGCall.setLevel s.level,
            VSGCall.setIQOffset (int16OfInt s.ioffset) (int16OfInt s.qoffset),
            VSGCall.getFrequency, VSGCall.getSampleRate])
  else if (ERROR_CHECK vsgNoError d.stGetLevel).aborted then
    (true, [VSGCall.setFrequency s.center, VSGCall.setSampleRate s.samplerate,
            VSGCall.setLevel s.level,
            VSGCall.setIQOffset (int16OfInt s.ioffset) (int16OfInt s.qoffset),
            VSGCall.getFrequency, VSGCall.getSampleRate, VSGCall.getLevel])
  else if (ERROR_CHECK vsgNoError d.stGetIQOffset).aborted then
    (true, [VSGCall.setFrequency s.center, VSGCall.setSampleRate s.samplerate,
            VSGCall.setLevel s.level,
            VSGCall.setIQOffset (int16OfInt s.ioffset) (int16OfInt s.qoffset),
            VSGCall.getFrequency, VSGCall.getSampleRate, VSGCall.getLevel,
            VSGCall.getIQOffset])
  else
    (false, [VSGCall.setFrequency s.center, VSGCall.setSampleRate s.samplerate,
             VSGCall.setLevel s.level,
             VSGCall.setIQOffset (int16OfInt s.ioffset) (int16OfInt s.qoffset),
             VSGCall.getFrequency, VSGCall.getSampleRate, VSGCall.getLevel,
             VSGCall.getIQOffset])

/-- Observable outcome of one `vsg_series_impl::work` invocation. -/
structure VSGWorkResult where
  aborted : Bool
  state : VSGState
  ret : Option Nat
  reconfigured : Bool
  calls : List VSGCall
deriving DecidableEq, Repr

/-- The tail of `vsg_series_impl::work` (lines 153-157): submit the runtime
input buffer directly (no intermediate copy: the call receives the input
pointer itself), then flush; the statuses `d.stSubmitIQ` / `d.stFlush` are
not consulted, mirroring that the source wraps neither call in
ERROR_CHECK. -/
def vsg_work_tail (_d : VSGDev) (n : Nat) (s : VSGState) (inBuf : List Sample)
    (reconfigured : Bool) (tr : List VSGCall) : VSGWorkResult :=
  { aborted := false, state := s, ret := some n, reconfigured := reconfigured,
    calls := tr ++ [VSGCall.submitIQ inBuf n, VSGCall.flush] }

/-- `vsg_series_impl::work` (lines 142-158). -/
def vsg_work (d : VSGDev) (n : Nat) (s : VSGState) (inBuf : List Sample) : VSGWorkResult :=
  if s.param_changed then
    if (vsg_configure d s).1 then
      { aborted := true, state := s, ret := none,
        reconfigured := true, calls := (vsg_configure d s).2 }
    else
      vsg_work_tail d n { s with param_changed := false } inBuf true (vsg_configure d s).2
  else
    vsg_work_tail d n s inBuf false []

/-- One externally triggerable operation on a constructed vsg adapter
(a setter call or a transfer-hook invocation). -/
inductive VSGOp
  | opSetCenter (v : CDouble)
  | opSetLevel (v : CDouble)
  | opSetSamplerate (v : CDouble)
  | opSetIoffset (v : Int)
  | opSetQoffset (v : Int)
  | opWork (d : VSGDev) (n : Nat) (inBuf : List Sample)

/-- State transition of one vsg operation. -/
def vsg_applyOp : VSGOp → VSGState → VSGState
  | VSGOp.opSetCenter v, s => vsg_set_center v s
  | VSGOp.opSetLevel v, s => vsg_set_level v s
  | VSGOp.opSetSamplerate v, s => vsg_set_samplerate v s
  | VSGOp.opSetIoffset v, s => vsg_set_ioffset v s
  | VSGOp.opSetQoffset v, s => vsg_set_qoffset v s
  | VSGOp.opWork d n inBuf, s => (vsg_work d n s inBuf).state

/-- A whole post-construction lifetime: a sequence of operations applied in
order. -/
def vsg_run (ops : List VSGOp) (s : VSGState) : VSGState :=
  ops.foldl (fun s op => vsg_applyOp op s) s

/- ------------------------------------------------------------------ -/
/- Setter sequences on the bb adapter (configuration-apply protocol)   -/
/- ------------------------------------------------------------------ -/

/-- One setter call on the bb adapter, with its argument. -/
inductive BBSetOp
  | opCenter (v : CDouble)
  | opReflevel (v : CDouble)
  | opDecimation (v : Int)
  | opBandwidth (v : CDouble)
  | opPurge (v : Bool)
deriving DecidableEq, Repr

/-- State transition of one bb setter call. -/
def bb_applySet : BBSetOp → BBState → BBState
  | BBSetOp.opCenter v, s => bb_set_center v s
  | BBSetOp.opReflevel v, s => bb_set_reflevel v s
  | BBSetOp.opDecimation v, s => bb_set_decimation v s
  | BBSetOp.opBandwidth v, s => bb_set_bandwidth v s
  | BBSetOp.opPurge v, s => bb_set_purge v s

/-- A sequence of setter calls applied in order (the calls that arrive
between two transfer-hook invocations). -/
def bb_applySets (ops : List BBSetOp) (s : BBState) : BBState :=
  ops.foldl (fun s op => bb_applySet op s) s

/-- The last value a sequence of setter calls assigns to `_center`
(`dflt` if none of them touches it). -/
def lastCenterVal (ops : List BBSetOp) (dflt : CDouble) : CDouble :=
  ops.foldl (fun acc op => match op with | BBSetOp.opCenter v => v | _ => acc) dflt

/-- Last value assigned to `_reflevel`. -/
def lastReflevelVal (ops : List BBSetOp) (dflt : CDouble) : CDouble :=
  ops.foldl (fun acc op => match op with | BBSetOp.opReflevel v => v | _ => acc) dflt

/-- Last value assigned to `_decimation`. -/
def lastDecimationVal (ops : List BBSetOp) (dflt : Int) : Int :=
  ops.foldl (fun acc op => match op with | BBSetOp.opDecimation v => v | _ => acc) dflt

/-- Last value assigned to `_bandwidth`. -/
def lastBandwidthVal (ops : List BBSetOp) (dflt : CDouble) : CDouble :=
  ops.foldl (fun acc op => match op with | BBSetOp.opBandwidth v => v | _ => acc) dflt

/-- Last value assigned to `_purge`. -/
def lastPurgeVal (ops : List BBSetOp) (dflt : Bool) : Bool :=
  ops.foldl (fun acc op => match op with | BBSetOp.opPurge v => v | _ => acc) dflt

/-- The vendor calls a completed `bb_series_impl::configure` issues, with
the parameter values it pushes (one per configuration field). -/
def bbCfgCalls (s : BBState) : List BBCall :=
  [BBCall.configureIQCenter s.center, BBCall.configureRefLevel s.reflevel,
   BBCall.configureIQ s.decimation s.bandwidth, BBCall.configureIQDataType,
   BBCall.initiate, BBCall.queryIQParameters]

/- ------------------------------------------------------------------ -/
/- Trace predicates: reconfiguration precedes the transfer call        -/
/- ------------------------------------------------------------------ -/

/-- Whether a bb vendor call is the blocking transfer (`bbGetIQUnpacked`). -/
def bb_isTransfer : BBCall → Bool
  | BBCall.getIQUnpacked _ _ => true
  | _ => false

/-- Whether a bb vendor call is the streaming initiation (`bbInitiate`),
the final step of a device reconfiguration. -/
def bb_isInitiate : BBCall → Bool
  | BBCall.initiate => true
  | _ => false

/-- The first transfer call of the trace (if any) is preceded by an
initiation call: scan left to right, fail on a transfer seen before any
initiation. -/
def bb_cfgBeforeTransfer : List BBCall → Bool
  | [] => true
  | c :: rest =>
    if bb_isTransfer c then false
    else (bb_isInitiate c || bb_cfgBeforeTransfer rest)

/-- Whether an sm vendor call is the blocking transfer (`smGetIQ`). -/
def sm_isTransfer : SMCall → Bool
  | SMCall.getIQ _ _ => true
  | _ => false

/-- Whether an sm vendor call is `smConfigure(smModeIQStreaming)`. -/
def sm_isInitiate : SMCall → Bool
  | SMCall.smConfigure => true
  | _ => false

/-- The first transfer call of the trace (if any) is preceded by a mode
configuration. -/
def sm_cfgBeforeTransfer : List SMCall → Bool
  | [] => true
  | c :: rest =>
    if sm_isTransfer c then false
    else (sm_isInitiate c || sm_cfgBeforeTransfer rest)

/-- Whether an sp vendor call is the blocking transfer (`spGetIQ`). -/
def sp_isTransfer : SPCall → Bool
  | SPCall.getIQ _ _ => true
  | _ => false

/-- Whether an sp vendor call is `spConfigure(spModeIQStreaming)`. -/
def sp_isInitiate : SPCall → Bool
  | SPCall.spConfigure => true
  | _ => false

/-- The first transfer call of the trace (if any) is preceded by a mode
configuration. -/
def sp_cfgBeforeTransfer : List SPCall → Bool
  | [] => true
  | c :: rest =>
    if sp_isTransfer c then false
    else (sp_isInitiate c || sp_cfgBeforeTransfer rest)

/-- Whether a vsg vendor call is the transfer submission (`vsgSubmitIQ`). -/
def vsg_isTransfer : VSGCall → Bool
  | VSGCall.submitIQ _ _ => true
  | _ => false

/-- Whether a vsg vendor call pushes a parameter (`vsgSetFrequency`, the
first push of the generator's reconfiguration). -/
def vsg_isCfgPush : VSGCall → Bool
  | VSGCall.setFrequency _ => true
  | _ => false

/-- The first transfer submission of the trace (if any) is preceded by a
parameter push. -/
def vsg_cfgBeforeTransfer : List VSGCall → Bool
  | [] => true
  | c :: rest =>
    if vsg_isTransfer c then false
    else (vsg_isCfgPush c || vsg_cfgBeforeTransfer rest)

/- ------------------------------------------------------------------ -/
/- Helper lemmas                                                       -/
/- ------------------------------------------------------------------ -/

theorem errcheck_aborted_eq (noError status : Int) :
    (ERROR_CHECK noError status).aborted = decide (status < noError) := by
  unfold ERROR_CHECK
  by_cases h : status = noError
  · simp [h]
  · by_cases h2 : noError < status
    · simp [h, h2]
      omega
    · simp [h, h2]
      omega

theorem bb_configure_fst (d : BBDev) (s : BBState) :
    (bb_configure d s).1 =
      ((ERROR_CHECK bbNoError d.stConfigureIQCenter).aborted ||
       (ERROR_CHECK bbNoError d.stConfigureRefLevel).aborted ||
       (ERROR_CHECK bbNoError d.stConfigureIQ).aborted ||
       (ERROR_CHECK bbNoError d.stConfigureIQDataType).aborted ||
       (ERROR_CHECK bbNoError d.stInitiate).aborted ||
       (ERROR_CHECK bbNoError d.stQueryIQParameters).aborted) := by
  cases h1 : (ERROR_CHECK bbNoError d.stConfigureIQCenter).aborted <;>
  cases h2 : (ERROR_CHECK bbNoError d.stConfigureRefLevel).aborted <;>
  cases h3 : (ERROR_CHECK bbNoError d.stConfigureIQ).aborted <;>
  cases h4 : (ERROR_CHECK bbNoError d.stConfigureIQDataType).aborted <;>
  cases h5 : (ERROR_CHECK bbNoError d.stInitiate).aborted <;>
  cases h6 : (ERROR_CHECK bbNoError d.stQueryIQParameters).aborted <;>
  simp [bb_configure, h1, h2, h3, h4, h5, h6]

theorem bb_configure_snd_complete (d : BBDev) (s : BBState)
    (h : (bb_configure d s).1 = false) :
    (bb_configure d s).2 = bbCfgCalls s := by
  cases h1 : (ERROR_CHECK bbNoError d.stConfigureIQCenter).aborted <;>
  cases h2 : (ERROR_CHECK bbNoError d.stConfigureRefLevel).aborted <;>
  cases h3 : (ERROR_CHECK bbNoError d.stConfigureIQ).aborted <;>
  cases h4 : (ERROR_CHECK bbNoError d.stConfigureIQDataType).aborted <;>
  cases h5 : (ERROR_CHECK bbNoError d.stInitiate).aborted <;>
  cases h6 : (ERROR_CHECK bbNoError d.stQueryIQParameters).aborted <;>
  simp_all [bb_configure, bbCfgCalls, h1, h2, h3, h4, h5, h6]

theorem bb_work_aborted (d : BBDev) (n : Nat) (s : BBState) (out : List Sample) :
    (bb_work d n s out).aborted =
      (s.param_changed && (bb_configure d s).1 ||
       (ERROR_CHECK bbNoError d.stGetIQUnpacked).aborted) := by
  by_cases hp : s.param_changed <;>
  by_cases hc : (bb_configure d s).1 <;>
  by_cases hg : (ERROR_CHECK bbNoError d.stGetIQUnpacked).aborted <;>
  simp [bb_work, bb_work_tail, hp, hc, hg]

theorem bb_work_ret (d : BBDev) (n : Nat) (s : BBState) (out : List Sample) :
    (bb_work d n s out).ret =
      (if (bb_work d n s out).aborted then none else some n) := by
  by_cases hp : s.param_changed <;>
  by_cases hc : (bb_configure d s).1 <;>
  by_cases hg : (ERROR_CHECK bbNoError d.stGetIQUnpacked).aborted <;>
  simp [bb_work, bb_work_tail, hp, hc, hg]

theorem bb_work_out (d : BBDev) (n : Nat) (s : BBState) (out : List Sample) :
    (bb_work d n s out).out =
      (if (bb_work d n s out).aborted then out
       else copyLoop (deviceSamples d.iq n) n out) := by
  by_cases hp : s.param_changed <;>
  by_cases hc : (bb_configure d s).1 <;>
  by_cases hg : (ERROR_CHECK bbNoError d.stGetIQUnpacked).aborted <;>
  simp [bb_work, bb_work_tail, hp, hc, hg]

theorem bb_work_reconfigured (d : BBDev) (n : Nat) (s : BBState) (out : List Sample) :
    (bb_work d n s out).reconfigured = s.param_changed := by
  by_cases hp : s.param_changed <;>
  by_cases hc : (bb_configure d s).1 <;>
  by_cases hg : (ERROR_CHECK bbNoError d.stGetIQUnpacked).aborted <;>
  simp [bb_work, bb_work_tail, hp, hc, hg]

theorem bb_work_reallocated (d : BBDev) (n : Nat) (s : BBState) (out : List Sample) :
    (bb_work d n s out).reallocated =
      (!(s.param_changed && (bb_configure d s).1) &&
       (s.buffer.isNone || !(decide ((n : Int) = s.len)))) := by
  by_cases hp : s.param_changed <;>
  by_cases hc : (bb_configure d s).1 <;>
  by_cases hg : (ERROR_CHECK bbNoError d.stGetIQUnpacked).aborted <;>
  simp [bb_work, bb_work_tail, hp, hc, hg]

theorem bb_work_state (d : BBDev) (n : Nat) (s : BBState) (out : List Sample) :
    (bb_work d n s out).state =
      (if s.param_changed && (bb_configure d s).1 then s
       else { s with param_changed := false,
                     buffer := some (deviceSamples d.iq n), len := (n : Int) }) := by
  by_cases hp : s.param_changed <;>
  by_cases hc : (bb_configure d s).1 <;>
  by_cases hg : (ERROR_CHECK bbNoError d.stGetIQUnpacked).aborted <;>
  by_cases hr : (s.buffer.isNone || !(decide ((n : Int) = s.len))) = true <;>
  simp_all [bb_work, bb_work_tail, hp, hc, hg, hr]

theorem bb_work_calls (d : BBDev) (n : Nat) (s : BBState) (out : List Sample) :
    (bb_work d n s out).calls =
      (if s.param_changed && (bb_configure d s).1 then (bb_configure d s).2
       else (if s.param_changed then (bb_configure d s).2 else []) ++
            [BBCall.getIQUnpacked n s.purge]) := by
  by_cases hp : s.param_changed <;>
  by_cases hc : (bb_configure d s).1 <;>
  by_cases hg : (ERROR_CHECK bbNoError d.stGetIQUnpacked).aborted <;>
  simp [bb_work, bb_work_tail, hp, hc, hg]

theorem sm_configure_fst (d : SMDev) (s : SMState) :
    (sm_configure d s).1 =
      ((ERROR_CHECK smNoError d.stSetIQDataType).aborted ||
       (ERROR_CHECK smNoError d.stSetIQCenterFreq).aborted ||
       (ERROR_CHECK smNoError d.stSetIQSampleRate).aborted ||
       (ERROR_CHECK smNoError d.stSetRefLevel).aborted ||
       (ERROR_CHECK smNoError d.stSetAttenuator).aborted ||
       (ERROR_CHECK smNoError d.stSetIQBandwidth).aborted ||
       (ERROR_CHECK smNoError d.stConfigure).aborted ||
       (ERROR_CHECK smNoError d.stGetIQParameters).aborted) := by
  cases h1 : (ERROR_CHECK smNoError d.stSetIQDataType).aborted <;>
  cases h2 : (ERROR_CHECK smNoError d.stSetIQCenterFreq).aborted <;>
  cases h3 : (ERROR_CHECK smNoError d.stSetIQSampleRate).aborted <;>
  cases h4 : (ERROR_CHECK smNoError d.stSetRefLevel).aborted <;>
  cases h5 : (ERROR_CHECK smNoError d.stSetAttenuator).aborted <;>
  cases h6 : (ERROR_CHECK smNoError d.stSetIQBandwidth).aborted <;>
  cases h7 : (ERROR_CHECK smNoError d.stConfigure).aborted <;>
  cases h8 : (ERROR_CHECK smNoError d.stGetIQParameters).aborted <;>
  simp [sm_configure, h1, h2, h3, h4, h5, h6, h7, h8]

theorem sm_work_aborted (d : SMDev) (n : Nat) (s : SMState) (out : List Sample) :
    (sm_work d n s out).aborted =
      (s.param_changed && (sm_configure d s).1 ||
       (ERROR_CHECK smNoError d.stGetIQ).aborted) := by
  by_cases hp : s.param_changed <;>
  by_cases hc : (sm_configure d s).1 <;>
  by_cases hg : (ERROR_CHECK smNoError d.stGetIQ).aborted <;>
  simp [sm_work, sm_work_tail, hp, hc, hg]

theorem sm_work_ret (d : SMDev) (n : Nat) (s : SMState) (out : List Sample) :
    (sm_work d n s out).ret =
      (if (sm_work d n s out).aborted then none else some n) := by
  by_cases hp : s.param_changed <;>
  by_cases hc : (sm_configure d s).1 <;>
  by_cases hg : (ERROR_CHECK smNoError d.stGetIQ).aborted <;>
  simp [sm_work, sm_work_tail, hp, hc, hg]

theorem sm_work_out (d : SMDev) (n : Nat) (s : SMState) (out : List Sample) :
    (sm_work d n s out).out =
      (if (sm_work d n s out).aborted then out
       else copyLoop (deviceSamples d.iq n) n out) := by
  by_cases hp : s.param_changed <;>
  by_cases hc : (sm_configure d s).1 <;>
  by_cases hg : (ERROR_CHECK smNoError d.stGetIQ).aborted <;>
  simp [sm_work, sm_work_tail, hp, hc, hg]

theorem sm_work_reconfigured (d : SMDev) (n : Nat) (s : SMState) (out : List Sample) :
    (sm_work d n s out).reconfigured = s.param_changed := by
  by_cases hp : s.param_changed <;>
  by_cases hc : (sm_configure d s).1 <;>
  by_cases hg : (ERROR_CHECK smNoError d.stGetIQ).aborted <;>
  simp [sm_work, sm_work_tail, hp, hc, hg]

theorem sm_work_reallocated (d : SMDev) (n : Nat) (s : SMState) (out : List Sample) :
    (sm_work d n s out).reallocated =
      (!(s.param_changed && (sm_configure d s).1) &&
       (s.buffer.isNone || !(decide ((n : Int) = s.len)))) := by
  by_cases hp : s.param_changed <;>
  by_cases hc : (sm_configure d s).1 <;>
  by_cases hg : (ERROR_CHECK smNoError d.stGetIQ).aborted <;>
  simp [sm_work, sm_work_tail, hp, hc, hg]

theorem sm_work_state (d : SMDev) (n : Nat) (s : SMState) (out : List Sample) :
    (sm_work d n s out).state =
      (if s.param_changed && (sm_configure d s).1 then s
       else { s with param_changed := false,
                     buffer := some (deviceSamples d.iq n), len := (n : Int) }) := by
  by_cases hp : s.param_changed <;>
  by_cases hc : (sm_configure d s).1 <;>
  by_cases hg : (ERROR_CHECK smNoError d.stGetIQ).aborted <;>
  by_cases hr : (s.buffer.isNone || !(decide ((n : Int) = s.len))) = true <;>
  simp_all [sm_work, sm_work_tail, hp, hc, hg, hr]

theorem sm_work_calls (d : SMDev) (n : Nat) (s : SMState) (out : List Sample) :
    (sm_work d n s out).calls =
      (if s.param_changed && (sm_configure d s).1 then (sm_configure d s).2
       else (if s.param_changed then (sm_configure d s).2 else []) ++
            [SMCall.getIQ n s.purge]) := by
  by_cases hp : s.param_changed <;>
  by_cases hc : (sm_configure d s).1 <;>
  by_cases hg : (ERROR_CHECK smNoError d.stGetIQ).aborted <;>
  simp [sm_work, sm_work_tail, hp, hc, hg]

theorem sp_configure_fst (d : SPDev) (s : SPState) :
    (sp_configure d s).1 =
      ((ERROR_CHECK spNoError d.stSetIQDataType).aborted ||
       (ERROR_CHECK spNoError d.stSetIQCenterFreq).aborted ||
       (ERROR_CHECK spNoError d.stSetIQSampleRate).aborted ||
       (ERROR_CHECK spNoError d.stSetIQSoftwareFilter).aborted ||
       (ERROR_CHECK spNoError d.stSetRefLevel).aborted ||
       (ERROR_CHECK spNoError d.stSetAttenuator).aborted ||
       (ERROR_CHECK spNoError d.stSetIQBandwidth).aborted ||
       (ERROR_CHECK spNoError d.stConfigure).aborted ||
       (ERROR_CHECK spNoError d.stGetIQParameters).aborted) := by
  cases h1 : (ERROR_CHECK spNoError d.stSetIQDataType).aborted <;>
  cases h2 : (ERROR_CHECK spNoError d.stSetIQCenterFreq).aborted <;>
  cases h3 : (ERROR_CHECK spNoError d.stSetIQSampleRate).aborted <;>
  cases h4 : (ERROR_CHECK spNoError d.stSetIQSoftwareFilter).aborted <;>
  cases h5 : (ERROR_CHECK spNoError d.stSetRefLevel).aborted <;>
  cases h6 : (ERROR_CHECK spNoError d.stSetAttenuator).aborted <;>
  cases h7 : (ERROR_CHECK spNoError d.stSetIQBandwidth).aborted <;>
  cases h8 : (ERROR_CHECK spNoError d.stConfigure).aborted <;>
  cases h9 : (ERROR_CHECK spNoError d.stGetIQParameters).aborted <;>
  simp [sp_configure, h1, h2, h3, h4, h5, h6, h7, h8, h9]

theorem sp_work_aborted (d : SPDev) (n : Nat) (s : SPState) (out : List Sample) :
    (sp_work d n s out).aborted =
      (s.param_changed && (sp_configure d s).1 ||
       (ERROR_CHECK spNoError d.stGetIQ).aborted) := by
  by_cases hp : s.param_changed <;>
  by_cases hc : (sp_configure d s).1 <;>
  by_cases hg : (ERROR_CHECK spNoError d.stGetIQ).aborted <;>
  simp [sp_work, sp_work_tail, hp, hc, hg]

theorem sp_work_ret (d : SPDev) (n : Nat) (s : SPState) (out : List Sample) :
    (sp_work d n s out).ret =
      (if (sp_work d n s out).aborted then none else some n) := by
  by_cases hp : s.param_changed <;>
  by_cases hc : (sp_configure d s).1 <;>
  by_cases hg : (ERROR_CHECK spNoError d.stGetIQ).aborted <;>
  simp [sp_work, sp_work_tail, hp, hc, hg]

theorem sp_work_out (d : SPDev) (n : Nat) (s : SPState) (out : List Sample) :
    (sp_work d n s out).out =
      (if (sp_work d n s out).aborted then out
       else copyLoop (deviceSamples d.iq n) n out) := by
  by_cases hp : s.param_changed <;>
  by_cases hc : (sp_configure d s).1 <;>
  by_cases hg : (ERROR_CHECK spNoError d.stGetIQ).aborted <;>
  simp [sp_work, sp_work_tail, hp, hc, hg]

theorem sp_work_reconfigured (d : SPDev) (n : Nat) (s : SPState) (out : List Sample) :
    (sp_work d n s out).reconfigured = s.param_changed := by
  by_cases hp : s.param_changed <;>
  by_cases hc : (sp_configure d s).1 <;>
  by_cases hg : (ERROR_CHECK spNoError d.stGetIQ).aborted <;>
  simp [sp_work, sp_work_tail, hp, hc, hg]

theorem sp_work_reallocated (d : SPDev) (n : Nat) (s : SPState) (out : List Sample) :
    (sp_work d n s out).reallocated =
      (!(s.param_changed && (sp_configure d s).1) &&
       (s.buffer.isNone || !(decide ((n : Int) = s.len)))) := by
  by_cases hp : s.param_changed <;>
  by_cases hc : (sp_configure d s).1 <;>
  by_cases hg : (ERROR_CHECK spNoError d.stGetIQ).aborted <;>
  simp [sp_work, sp_work_tail, hp, hc, hg]

theorem sp_work_state (d : SPDev) (n : Nat) (s : SPState) (out : List Sample) :
    (sp_work d n s out).state =
      (if s.param_changed && (sp_configure d s).1 then s
       else { s with param_changed := false,
                     buffer := some (deviceSamples d.iq n), len := (n : Int) }) := by
  by_cases hp : s.param_changed <;>
  by_cases hc : (sp_configure d s).1 <;>
  by_cases hg : (ERROR_CHECK spNoError d.stGetIQ).aborted <;>
  by_cases hr : (s.buffer.isNone || !(decide ((n : Int) = s.len))) = true <;>
  simp_all [sp_work, sp_work_tail, hp, hc, hg, hr]

theorem sp_work_calls (d : SPDev) (n : Nat) (s : SPState) (out : List Sample) :
    (sp_work d n s out).calls =
      (if s.param_changed && (sp_configure d s).1 then (sp_configure d s).2
       else (if s.param_changed then (sp_configure d s).2 else []) ++
            [SPCall.getIQ n s.purge]) := by
  by_cases hp : s.param_changed <;>
  by_cases hc : (sp_configure d s).1 <;>
  by_cases hg : (ERROR_CHECK spNoError d.stGetIQ).aborted <;>
  simp [sp_work, sp_work_tail, hp, hc, hg]

theorem vsg_work_aborted (d : VSGDev) (n : Nat) (s : VSGState) (inBuf : List Sample) :
    (vsg_work d n s inBuf).aborted = (s.param_changed && (vsg_configure d s).1) := by
  by_cases hp : s.param_changed <;>
  by_cases hc : (vsg_configure d s).1 <;>
  simp [vsg_work, vsg_work_tail, hp, hc]

theorem vsg_work_ret (d : VSGDev) (n : Nat) (s : VSGState) (inBuf : List Sample) :
    (vsg_work d n s inBuf).ret =
      (if (vsg_work d n s inBuf).aborted then none else some n) := by
  by_cases hp : s.param_changed <;>
  by_cases hc : (vsg_configure d s).1 <;>
  simp [vsg_work, vsg_work_tail, hp, hc]

theorem vsg_work_reconfigured (d : VSGDev) (n : Nat) (s : VSGState) (inBuf : List Sample) :
    (vsg_work d n s inBuf).reconfigured = s.param_changed := by
  by_cases hp : s.param_changed <;>
  by_cases hc : (vsg_configure d s).1 <;>
  simp [vsg_work, vsg_work_tail, hp, hc]

theorem vsg_work_state (d : VSGDev) (n : Nat) (s : VSGState) (inBuf : List Sample) :
    (vsg_work d n s inBuf).state =
      (if s.param_changed && (vsg_configure d s).1 then s
       else { s with param_changed := false }) := by
  cases s with
  | mk center samplerate level ioffset qoffset param_changed buffer len =>
    by_cases hp : param_changed <;>
    by_cases hc : (vsg_configure d ⟨center, samplerate, level, ioffset, qoffset,
                    param_changed, buffer, len⟩).1 <;>
    simp_all [vsg_work, vsg_work_tail]

theorem vsg_work_calls (d : VSGDev) (n : Nat) (s : VSGState) (inBuf : List Sample) :
    (vsg_work d n s inBuf).calls =
      (if s.param_changed && (vsg_configure d s).1 then (vsg_configure d s).2
       else (if s.param_changed then (vsg_configure d s).2 else []) ++
            [VSGCall.submitIQ inBuf n, VSGCall.flush]) := by
  by_cases hp : s.param_changed <;>
  by_cases hc : (vsg_configure d s).1 <;>
  simp [vsg_work, vsg_work_tail, hp, hc]

theorem vsg_configure_fst (d : VSGDev) (s : VSGState) :
    (vsg_configure d s).1 =
      ((ERROR_CHECK vsgNoError d.stSetFrequency).aborted ||
       (ERROR_CHECK vsgNoError d.stSetSampleRate).aborted ||
       (ERROR_CHECK vsgNoError d.stSetLevel).aborted ||
       (ERROR_CHECK vsgNoError d.stSetIQOffset).aborted ||
       (ERROR_CHECK vsgNoError d.stGetFrequency).aborted ||
       (ERROR_CHECK vsgNoError d.stGetSampleRate).aborted ||
       (ERROR_CHECK vsgNoError d.stGetLevel).aborted ||
       (ERROR_CHECK vsgNoError d.stGetIQOffset).aborted) := by
  cases h1 : (ERROR_CHECK vsgNoError d.stSetFrequency).aborted <;>
  cases h2 : (ERROR_CHECK vsgNoError d.stSetSampleRate).aborted <;>
  cases h3 : (ERROR_CHECK vsgNoError d.stSetLevel).aborted <;>
  cases h4 : (ERROR_CHECK vsgNoError d.stSetIQOffset).aborted <;>
  cases h5 : (ERROR_CHECK vsgNoError d.stGetFrequency).aborted <;>
  cases h6 : (ERROR_CHECK vsgNoError d.stGetSampleRate).aborted <;>
  cases h7 : (ERROR_CHECK vsgNoError d.stGetLevel).aborted <;>
  cases h8 : (ERROR_CHECK vsgNoError d.stGetIQOffset).aborted <;>
  simp [vsg_configure, h1, h2, h3, h4, h5, h6, h7, h8]

theorem sm_configure_snd_complete (d : SMDev) (s : SMState)
    (h : (sm_configure d s).1 = false) :
    (sm_configure d s).2 =
      [SMCall.setIQDataType, SMCall.setIQCenterFreq s.center,
       SMCall.setIQSampleRate s.decimation, SMCall.setRefLevel s.reflevel,
       SMCall.setAttenuator s.atten, SMCall.setIQBandwidth s.swfilter s.bandwidth,
       SMCall.smConfigure, SMCall.getIQParameters] := by
  cases h1 : (ERROR_CHECK smNoError d.stSetIQDataType).aborted <;>
  cases h2 : (ERROR_CHECK smNoError d.stSetIQCenterFreq).aborted <;>
  cases h3 : (ERROR_CHECK smNoError d.stSetIQSampleRate).aborted <;>
  cases h4 : (ERROR_CHECK smNoError d.stSetRefLevel).aborted <;>
  cases h5 : (ERROR_CHECK smNoError d.stSetAttenuator).aborted <;>
  cases h6 : (ERROR_CHECK smNoError d.stSetIQBandwidth).aborted <;>
  cases h7 : (ERROR_CHECK smNoError d.stConfigure).aborted <;>
  cases h8 : (ERROR_CHECK smNoError d.stGetIQParameters).aborted <;>
  simp_all [sm_configure, h1, h2, h3, h4, h5, h6, h7, h8]

theorem sp_configure_snd_complete (d : SPDev) (s : SPState)
    (h : (sp_configure d s).1 = false) :
    (sp_configure d s).2 =
      [SPCall.setIQDataType, SPCall.setIQCenterFreq s.center,
       SPCall.setIQSampleRate s.decimation, SPCall.setIQSoftwareFilter s.swfilter,
       SPCall.setRefLevel s.reflevel, SPCall.setAttenuator s.atten,
       SPCall.setIQBandwidth s.bandwidth, SPCall.spConfigure,
       SPCall.getIQParameters] := by
  cases h1 : (ERROR_CHECK spNoError d.stSetIQDataType).aborted <;>
  cases h2 : (ERROR_CHECK spNoError d.stSetIQCenterFreq).aborted <;>
  cases h3 : (ERROR_CHECK spNoError d.stSetIQSampleRate).aborted <;>
  cases h4 : (ERROR_CHECK spNoError d.stSetIQSoftwareFilter).aborted <;>
  cases h5 : (ERROR_CHECK spNoError d.stSetRefLevel).aborted <;>
  cases h6 : (ERROR_CHECK spNoError d.stSetAttenuator).aborted <;>
  cases h7 : (ERROR_CHECK spNoError d.stSetIQBandwidth).aborted <;>
  cases h8 : (ERROR_CHECK spNoError d.stConfigure).aborted <;>
  cases h9 : (ERROR_CHECK spNoError d.stGetIQParameters).aborted <;>
  simp_all [sp_configure, h1, h2, h3, h4, h5, h6, h7, h8, h9]

theorem vsg_configure_snd_complete (d : VSGDev) (s : VSGState)
    (h : (vsg_configure d s).1 = false) :
    (vsg_configure d s).2 =
      [VSGCall.setFrequency s.center, VSGCall.setSampleRate s.samplerate,
       VSGCall.setLevel s.level,
       VSGCall.setIQOffset (int16OfInt s.ioffset) (int16OfInt s.qoffset),
       VSGCall.getFrequency, VSGCall.getSampleRate, VSGCall.getLevel,
       VSGCall.getIQOffset] := by
  cases h1 : (ERROR_CHECK vsgNoError d.stSetFrequency).aborted <;>
  cases h2 : (ERROR_CHECK vsgNoError d.stSetSampleRate).aborted <;>
  cases h3 : (ERROR_CHECK vsgNoError d.stSetLevel).aborted <;>
  cases h4 : (ERROR_CHECK vsgNoError d.stSetIQOffset).aborted <;>
  cases h5 : (ERROR_CHECK vsgNoError d.stGetFrequency).aborted <;>
  cases h6 : (ERROR_CHECK vsgNoError d.stGetSampleRate).aborted <;>
  cases h7 : (ERROR_CHECK vsgNoError d.stGetLevel).aborted <;>
  cases h8 : (ERROR_CHECK vsgNoError d.stGetIQOffset).aborted <;>
  simp_all [vsg_configure, h1, h2, h3, h4, h5, h6, h7, h8]

theorem bb_configure_trace_no_transfer (d : BBDev) (s : BBState) :
    bb_cfgBeforeTransfer (bb_configure d s).2 = true := by
  cases h1 : (ERROR_CHECK bbNoError d.stConfigureIQCenter).aborted <;>
  cases h2 : (ERROR_CHECK bbNoError d.stConfigureRefLevel).aborted <;>
  cases h3 : (ERROR_CHECK bbNoError d.stConfigureIQ).aborted <;>
  cases h4 : (ERROR_CHECK bbNoError d.stConfigureIQDataType).aborted <;>
  cases h5 : (ERROR_CHECK bbNoError d.stInitiate).aborted <;>
  cases h6 : (ERROR_CHECK bbNoError d.stQueryIQParameters).aborted <;>
  simp [bb_configure, h1, h2, h3, h4, h5, h6,
        bb_cfgBeforeTransfer, bb_isTransfer, bb_isInitiate]

theorem sm_configure_trace_no_transfer (d : SMDev) (s : SMState) :
    sm_cfgBeforeTransfer (sm_configure d s).2 = true := by
  cases h1 : (ERROR_CHECK smNoError d.stSetIQDataType).aborted <;>
  cases h2 : (ERROR_CHECK smNoError d.stSetIQCenterFreq).aborted <;>
  cases h3 : (ERROR_CHECK smNoError d.stSetIQSampleRate).aborted <;>
  cases h4 : (ERROR_CHECK smNoError d.stSetRefLevel).aborted <;>
  cases h5 : (ERROR_CHECK smNoError d.stSetAttenuator).aborted <;>
  cases h6 : (ERROR_CHECK smNoError d.stSetIQBandwidth).aborted <;>
  cases h7 : (ERROR_CHECK smNoError d.stConfigure).aborted <;>
  cases h8 : (ERROR_CHECK smNoError d.stGetIQParameters).aborted <;>
  simp [sm_configure, h1, h2, h3, h4, h5, h6, h7, h8,
        sm_cfgBeforeTransfer, sm_isTransfer, sm_isInitiate]

theorem sp_configure_trace_no_transfer (d : SPDev) (s : SPState) :
    sp_cfgBeforeTransfer (sp_configure d s).2 = true := by
  cases h1 : (ERROR_CHECK spNoError d.stSetIQDataType).aborted <;>
  cases h2 : (ERROR_CHECK spNoError d.stSetIQCenterFreq).aborted <;>
  cases h3 : (ERROR_CHECK spNoError d.stSetIQSampleRate).aborted <;>
  cases h4 : (ERROR_CHECK spNoError d.stSetIQSoftwareFilter).aborted <;>
  cases h5 : (ERROR_CHECK spNoError d.stSetRefLevel).aborted <;>
  cases h6 : (ERROR_CHECK spNoError d.stSetAttenuator).aborted <;>
  cases h7 : (ERROR_CHECK spNoError d.stSetIQBandwidth).aborted <;>
  cases h8 : (ERROR_CHECK spNoError d.stConfigure).aborted <;>
  cases h9 : (ERROR_CHECK spNoError d.stGetIQParameters).aborted <;>
  simp [sp_configure, h1, h2, h3, h4, h5, h6, h7, h8, h9,
        sp_cfgBeforeTransfer, sp_isTransfer, sp_isInitiate]

theorem vsg_configure_trace_no_transfer (d : VSGDev) (s : VSGState) :
    vsg_cfgBeforeTransfer (vsg_configure d s).2 = true := by
  cases h1 : (ERROR_CHECK vsgNoError d.stSetFrequency).aborted <;>
  cases h2 : (ERROR_CHECK vsgNoError d.stSetSampleRate).aborted <;>
  cases h3 : (ERROR_CHECK vsgNoError d.stSetLevel).aborted <;>
  cases h4 : (ERROR_CHECK vsgNoError d.stSetIQOffset).aborted <;>
  cases h5 : (ERROR_CHECK vsgNoError d.stGetFrequency).aborted <;>
  cases h6 : (ERROR_CHECK vsgNoError d.stGetSampleRate).aborted <;>
  cases h7 : (ERROR_CHECK vsgNoError d.stGetLevel).aborted <;>
  cases h8 : (ERROR_CHECK vsgNoError d.stGetIQOffset).aborted <;>
  simp [vsg_configure, h1, h2, h3, h4, h5, h6, h7, h8,
        vsg_cfgBeforeTransfer, vsg_isTransfer, vsg_isCfgPush]

theorem bb_applySets_center (ops : List BBSetOp) : ∀ s : BBState,
    (bb_applySets ops s).center = lastCenterVal ops s.center := by
  induction ops with
  | nil => intro s; rfl
  | cons op rest ih =>
    intro s
    rw [show bb_applySets (op :: rest) s = bb_applySets rest (bb_applySet op s) from rfl]
    rw [ih]
    cases op <;> rfl

theorem bb_applySets_reflevel (ops : List BBSetOp) : ∀ s : BBState,
    (bb_applySets ops s).reflevel = lastReflevelVal ops s.reflevel := by
  induction ops with
  | nil => intro s; rfl
  | cons op rest ih =>
    intro s
    rw [show bb_applySets (op :: rest) s = bb_applySets rest (bb_applySet op s) from rfl]
    rw [ih]
    cases op <;> rfl

theorem bb_applySets_decimation (ops : List BBSetOp) : ∀ s : BBState,
    (bb_applySets ops s).decimation = lastDecimationVal ops s.decimation := by
  induction ops with
  | nil => intro s; rfl
  | cons op rest ih =>
    intro s
    rw [show bb_applySets (op :: rest) s = bb_applySets rest (bb_applySet op s) from rfl]
    rw [ih]
    cases op <;> rfl

theorem bb_applySets_bandwidth (ops : List BBSetOp) : ∀ s : BBState,
    (bb_applySets ops s).bandwidth = lastBandwidthVal ops s.bandwidth := by
  induction ops with
  | nil => intro s; rfl
  | cons op rest ih =>
    intro s
    rw [show bb_applySets (op :: rest) s = bb_applySets rest (bb_applySet op s) from rfl]
    rw [ih]
    cases op <;> rfl

theorem bb_applySets_purge (ops : List BBSetOp) : ∀ s : BBState,
    (bb_applySets ops s).purge = lastPurgeVal ops s.purge := by
  induction ops with
  | nil => intro s; rfl
  | cons op rest ih =>
    intro s
    rw [show bb_applySets (op :: rest) s = bb_applySets rest (bb_applySet op s) from rfl]
    rw [ih]
    cases op <;> rfl

theorem vsg_applyOp_buffer (op : VSGOp) (s : VSGState) :
    (vsg_applyOp op s).buffer = s.buffer := by
  cases op with
  | opWork d n inBuf =>
    show ((vsg_work d n s inBuf).state).buffer = s.buffer
    rw [vsg_work_state]
    split <;> rfl
  | opSetCenter v => rfl
  | opSetLevel v => rfl
  | opSetSamplerate v => rfl
  | opSetIoffset v => rfl
  | opSetQoffset v => rfl

theorem vsg_run_buffer (ops : List VSGOp) : ∀ s : VSGState,
    (vsg_run ops s).buffer = s.buffer := by
  induction ops with
  | nil => intro s; rfl
  | cons op rest ih =>
    intro s
    rw [show vsg_run (op :: rest) s = vsg_run rest (vsg_applyOp op s) from rfl]
    rw [ih, vsg_applyOp_buffer]

/- ------------------------------------------------------------------ -/
/- Claims                                                              -/
/- ------------------------------------------------------------------ -/

/-- C3: for every status passed to `ERROR_CHECK`: on the success value
nothing is printed and execution continues; above the success value a
warning is printed and execution continues; below the success value an
error is printed and the process is terminated; and `ERROR_CHECK`
terminates the process if and only if the status is less than the success
value. -/
theorem C3_errorCheck_two_tier (noError status : Int) :
    ((ERROR_CHECK noError status).aborted = true ↔ status < noError) ∧
    ((ERROR_CHECK noError status).printed = none ↔ status = noError) ∧
    ((ERROR_CHECK noError status).printed = some PrintKind.warning ↔ noError < status) ∧
    ((ERROR_CHECK noError status).printed = some PrintKind.error ↔ status < noError) := by
  unfold ERROR_CHECK
  by_cases h : status = noError
  · simp [h]
  · by_cases h2 : noError < status
    · simp [h, h2]
      omega
    · simp [h, h2]
      omega

/-- C1 counterexample: the claim asserts that every setter, `set_purge`
included, sets the dirty marker `_param_changed` to true; but
`bb_series_impl::set_purge` (lines 107-111) only writes `_purge`, so on a
state whose dirty marker is clear it remains false after the call. -/
theorem C1_counterexample :
    (bb_set_purge true
      { center := 100, reflevel := -20, decimation := 2, bandwidth := 50,
        purge := false, param_changed := false, buffer := none,
        len := 0 : BBState }).param_changed = false := rfl

/-- C1 amended: every setter of every adapter updates exactly its own
pending-configuration field while the mutual-exclusion lock is held, and
every setter except the receivers' `set_purge` also sets the dirty marker
to true under that lock; `set_purge` (bb/sm/sp) updates the purge field
under the lock but leaves the dirty marker unchanged. -/
theorem C1_amended_setters_under_lock :
    (∀ v s, bb_set_center v s = { s with center := v, param_changed := true }) ∧
    (∀ v s, bb_set_reflevel v s = { s with reflevel := v, param_changed := true }) ∧
    (∀ v s, bb_set_decimation v s = { s with decimation := v, param_changed := true }) ∧
    (∀ v s, bb_set_bandwidth v s = { s with bandwidth := v, param_changed := true }) ∧
    (∀ v s, bb_set_purge v s = { s with purge := v }) ∧
    (∀ v s, sm_set_center v s = { s with center := v, param_changed := true }) ∧
    (∀ v s, sm_set_reflevel v s = { s with reflevel := v, param_changed := true }) ∧
    (∀ v s, sm_set_atten v s = { s with atten := v, param_changed := true }) ∧
    (∀ v s, sm_set_decimation v s = { s with decimation := v, param_changed := true }) ∧
    (∀ v s, sm_set_bandwidth v s = { s with bandwidth := v, param_changed := true }) ∧
    (∀ v s, sm_set_swfilter v s = { s with swfilter := v, param_changed := true }) ∧
    (∀ v s, sm_set_purge v s = { s with purge := v }) ∧
    (∀ v s, sp_set_center v s = { s with center := v, param_changed := true }) ∧
    (∀ v s, sp_set_reflevel v s = { s with reflevel := v, param_changed := true }) ∧
    (∀ v s, sp_set_atten v s = { s with atten := v, param_changed := true }) ∧
    (∀ v s, sp_set_decimation v s = { s with decimation := v, param_changed := true }) ∧
    (∀ v s, sp_set_bandwidth v s = { s with bandwidth := v, param_changed := true }) ∧
    (∀ v s, sp_set_swfilter v s = { s with swfilter := v, param_changed := true }) ∧
    (∀ v s, sp_set_purge v s = { s with purge := v }) ∧
    (∀ v s, vsg_set_center v s = { s with center := v, param_changed := true }) ∧
    (∀ v s, vsg_set_level v s = { s with level := v, param_changed := true }) ∧
    (∀ v s, vsg_set_samplerate v s = { s with samplerate := v, param_changed := true }) ∧
    (∀ v s, vsg_set_ioffset v s = { s with ioffset := v, param_changed := true }) ∧
    (∀ v s, vsg_set_qoffset v s = { s with qoffset := v, param_changed := true }) ∧
    ((bb_set_center_steps ++ bb_set_reflevel_steps ++ bb_set_decimation_steps ++
      bb_set_bandwidth_steps ++ bb_set_purge_steps ++
      sm_set_center_steps ++ sm_set_reflevel_steps ++ sm_set_atten_steps ++
      sm_set_decimation_steps ++ sm_set_bandwidth_steps ++ sm_set_swfilter_steps ++
      sm_set_purge_steps ++
      sp_set_center_steps ++ sp_set_reflevel_steps ++ sp_set_atten_steps ++
      sp_set_decimation_steps ++ sp_set_bandwidth_steps ++ sp_set_swfilter_steps ++
      sp_set_purge_steps ++
      vsg_set_center_steps ++ vsg_set_level_steps ++ vsg_set_samplerate_steps ++
      vsg_set_ioffset_steps ++ vsg_set_qoffset_steps).all
        (fun st => st.lockHeld) = true) ∧
    (bb_set_purge_steps = [⟨StepKind.writeField, true⟩]) ∧
    (sm_set_purge_steps = [⟨StepKind.writeField, true⟩]) ∧
    (sp_set_purge_steps = [⟨StepKind.writeField, true⟩]) :=
  ⟨fun _ _ => rfl, fun _ _ => rfl, fun _ _ => rfl, fun _ _ => rfl, fun _ _ => rfl,
   fun _ _ => rfl, fun _ _ => rfl, fun _ _ => rfl, fun _ _ => rfl, fun _ _ => rfl,
   fun _ _ => rfl, fun _ _ => rfl,
   fun _ _ => rfl, fun _ _ => rfl, fun _ _ => rfl, fun _ _ => rfl, fun _ _ => rfl,
   fun _ _ => rfl, fun _ _ => rfl,
   fun _ _ => rfl, fun _ _ => rfl, fun _ _ => rfl, fun _ _ => rfl, fun _ _ => rfl,
   by decide, rfl, rfl, rfl⟩

/-- C2 counterexample: the claim asserts the two-tier status check is
applied to the I/Q submit and flush statuses inside the generator's
transfer hook; but with both statuses fatal (below `vsgNoError`) and a
clean configuration, `vsg_series_impl::work` neither aborts nor reports —
it completes and returns the full requested count (the source, lines
153-154, wraps neither `vsgSubmitIQ` nor `vsgFlush` in `ERROR_CHECK`). -/
theorem C2_counterexample :
    (-1 : Int) < vsgNoError ∧
    (vsg_work
      { stSetFrequency := 0, stSetSampleRate := 0, stSetLevel := 0,
        stSetIQOffset := 0, stGetFrequency := 0, stGetSampleRate := 0,
        stGetLevel := 0, stGetIQOffset := 0, actualFrequency := 0,
        actualSampleRate := 0, actualLevel := 0, actualIOffset := 0,
        actualQOffset := 0, stSubmitIQ := -1, stFlush := -1 }
      4
      { center := 1000, samplerate := 50, level := -10, ioffset := 0,
        qoffset := 0, param_changed := false, buffer := none, len := 0 }
      [(1, 2), (3, 4), (5, 6), (7, 8)]).aborted = false ∧
    (vsg_work
      { stSetFrequency := 0, stSetSampleRate := 0, stSetLevel := 0,
        stSetIQOffset := 0, stGetFrequency := 0, stGetSampleRate := 0,
        stGetLevel := 0, stGetIQOffset := 0, actualFrequency := 0,
        actualSampleRate := 0, actualLevel := 0, actualIOffset := 0,
        actualQOffset := 0, stSubmitIQ := -1, stFlush := -1 }
      4
      { center := 1000, samplerate := 50, level := -10, ioffset := 0,
        qoffset := 0, param_changed := false, buffer := none, len := 0 }
      [(1, 2), (3, 4), (5, 6), (7, 8)]).ret = some 4 := by
  decide

/-- C2 amended: during the generator's reconfiguration step every vendor
call status is checked under the same two-tier policy as the receivers
(the hook aborts exactly when one of those eight statuses is fatal), but
the statuses returned by the I/Q submit and flush calls inside the
transfer hook are discarded unchecked: the hook's entire outcome is
independent of them, and a hook invocation never aborts because of them. -/
theorem C2_amended_vsg_status_policy (d : VSGDev) (n : Nat) (s : VSGState)
    (inBuf : List Sample) (st st' : Int) :
    (vsg_work { d with stSubmitIQ := st, stFlush := st' } n s inBuf =
       vsg_work d n s inBuf) ∧
    ((vsg_work d n s inBuf).aborted = (s.param_changed && (vsg_configure d s).1)) ∧
    ((vsg_configure d s).1 =
      ((ERROR_CHECK vsgNoError d.stSetFrequency).aborted ||
       (ERROR_CHECK vsgNoError d.stSetSampleRate).aborted ||
       (ERROR_CHECK vsgNoError d.stSetLevel).aborted ||
       (ERROR_CHECK vsgNoError d.stSetIQOffset).aborted ||
       (ERROR_CHECK vsgNoError d.stGetFrequency).aborted ||
       (ERROR_CHECK vsgNoError d.stGetSampleRate).aborted ||
       (ERROR_CHECK vsgNoError d.stGetLevel).aborted ||
       (ERROR_CHECK vsgNoError d.stGetIQOffset).aborted)) :=
  ⟨rfl, vsg_work_aborted d n s inBuf, vsg_configure_fst d s⟩

/-- C8: every transfer-hook invocation that completes (does not abort)
returns exactly the requested item count, for the three receivers and the
generator alike. -/
theorem C8_full_count_on_completion :
    (∀ d n s out, (bb_work d n s out).ret =
       (if (bb_work d n s out).aborted then none else some n)) ∧
    (∀ d n s out, (sm_work d n s out).ret =
       (if (sm_work d n s out).aborted then none else some n)) ∧
    (∀ d n s out, (sp_work d n s out).ret =
       (if (sp_work d n s out).aborted then none else some n)) ∧
    (∀ d n s inBuf, (vsg_work d n s inBuf).ret =
       (if (vsg_work d n s inBuf).aborted then none else some n)) :=
  ⟨bb_work_ret, sm_work_ret, sp_work_ret, vsg_work_ret⟩

theorem bb_work_aborted_statuses (d : BBDev) (n : Nat) (s : BBState) (out : List Sample) :
    (bb_work d n s out).aborted =
      (s.param_changed &&
         (decide (d.stConfigureIQCenter < bbNoError) ||
          decide (d.stConfigureRefLevel < bbNoError) ||
          decide (d.stConfigureIQ < bbNoError) ||
          decide (d.stConfigureIQDataType < bbNoError) ||
          decide (d.stInitiate < bbNoError) ||
          decide (d.stQueryIQParameters < bbNoError)) ||
       decide (d.stGetIQUnpacked < bbNoError)) := by
  rw [bb_work_aborted, bb_configure_fst]
  simp only [errcheck_aborted_eq]

theorem sm_work_aborted_statuses (d : SMDev) (n : Nat) (s : SMState) (out : List Sample) :
    (sm_work d n s out).aborted =
      (s.param_changed &&
         (decide (d.stSetIQDataType < smNoError) ||
          decide (d.stSetIQCenterFreq < smNoError) ||
          decide (d.stSetIQSampleRate < smNoError) ||
          decide (d.stSetRefLevel < smNoError) ||
          decide (d.stSetAttenuator < smNoError) ||
          decide (d.stSetIQBandwidth < smNoError) ||
          decide (d.stConfigure < smNoError) ||
          decide (d.stGetIQParameters < smNoError)) ||
       decide (d.stGetIQ < smNoError)) := by
  rw [sm_work_aborted, sm_configure_fst]
  simp only [errcheck_aborted_eq]

theorem sp_work_aborted_statuses (d : SPDev) (n : Nat) (s : SPState) (out : List Sample) :
    (sp_work d n s out).aborted =
      (s.param_changed &&
         (decide (d.stSetIQDataType < spNoError) ||
          decide (d.stSetIQCenterFreq < spNoError) ||
          decide (d.stSetIQSampleRate < spNoError) ||
          decide (d.stSetIQSoftwareFilter < spNoError) ||
          decide (d.stSetRefLevel < spNoError) ||
          decide (d.stSetAttenuator < spNoError) ||
          decide (d.stSetIQBandwidth < spNoError) ||
          decide (d.stConfigure < spNoError) ||
          decide (d.stGetIQParameters < spNoError)) ||
       decide (d.stGetIQ < spNoError)) := by
  rw [sp_work_aborted, sp_configure_fst]
  simp only [errcheck_aborted_eq]

/-- C4: for each receiver's transfer hook: the hook aborts exactly when one
of the vendor calls it makes returns a fatal status (below the success
value); on the abort path the runtime output buffer is left unchanged (the
abort happens before the copy loop); when no status is fatal the hook
copies the device samples into the output buffer and returns the full
requested count. -/
theorem C4_receiver_fatal_abort_before_copy :
    (∀ (d : BBDev) (n : Nat) (s : BBState) (out : List Sample),
      ((bb_work d n s out).aborted =
        (s.param_changed &&
           (decide (d.stConfigureIQCenter < bbNoError) ||
            decide (d.stConfigureRefLevel < bbNoError) ||
            decide (d.stConfigureIQ < bbNoError) ||
            decide (d.stConfigureIQDataType < bbNoError) ||
            decide (d.stInitiate < bbNoError) ||
            decide (d.stQueryIQParameters < bbNoError)) ||
         decide (d.stGetIQUnpacked < bbNoError))) ∧
      ((bb_work d n s out).out =
        (if (bb_work d n s out).aborted then out
         else copyLoop (deviceSamples d.iq n) n out)) ∧
      ((bb_work d n s out).ret =
        (if (bb_work d n s out).aborted then none else some n))) ∧
    (∀ (d : SMDev) (n : Nat) (s : SMState) (out : List Sample),
      ((sm_work d n s out).aborted =
        (s.param_changed &&
           (decide (d.stSetIQDataType < smNoError) ||
            decide (d.stSetIQCenterFreq < smNoError) ||
            decide (d.stSetIQSampleRate < smNoError) ||
            decide (d.stSetRefLevel < smNoError) ||
            decide (d.stSetAttenuator < smNoError) ||
            decide (d.stSetIQBandwidth < smNoError) ||
            decide (d.stConfigure < smNoError) ||
            decide (d.stGetIQParameters < smNoError)) ||
         decide (d.stGetIQ < smNoError))) ∧
      ((sm_work d n s out).out =
        (if (sm_work d n s out).aborted then out
         else copyLoop (deviceSamples d.iq n) n out)) ∧
      ((sm_work d n s out).ret =
        (if (sm_work d n s out).aborted then none else some n))) ∧
    (∀ (d : SPDev) (n : Nat) (s : SPState) (out : List Sample),
      ((sp_work d n s out).aborted =
        (s.param_changed &&
           (decide (d.stSetIQDataType < spNoError) ||
            decide (d.stSetIQCenterFreq < spNoError) ||
            decide (d.stSetIQSampleRate < spNoError) ||
            decide (d.stSetIQSoftwareFilter < spNoError) ||
            decide (d.stSetRefLevel < spNoError) ||
            decide (d.stSetAttenuator < spNoError) ||
            decide (d.stSetIQBandwidth < spNoError) ||
            decide (d.stConfigure < spNoError) ||
            decide (d.stGetIQParameters < spNoError)) ||
         decide (d.stGetIQ < spNoError))) ∧
      ((sp_work d n s out).out =
        (if (sp_work d n s out).aborted then out
         else copyLoop (deviceSamples d.iq n) n out)) ∧
      ((sp_work d n s out).ret =
        (if (sp_work d n s out).aborted then none else some n))) :=
  ⟨fun d n s out =>
      ⟨bb_work_aborted_statuses d n s out, bb_work_out d n s out, bb_work_ret d n s out⟩,
   fun d n s out =>
      ⟨sm_work_aborted_statuses d n s out, sm_work_out d n s out, sm_work_ret d n s out⟩,
   fun d n s out =>
      ⟨sp_work_aborted_statuses d n s out, sp_work_out d n s out, sp_work_ret d n s out⟩⟩

/-- C5: for any sequence of setter calls applied between two hook
invocations, the resulting pending configuration holds, per field
independently, exactly the last value set for that field (or the prior
value if untouched), and a completing hook invocation pushes exactly those
merged values to the device: the configure calls carry the merged field
values and the blocking read carries the merged purge flag. -/
theorem C5_last_write_wins_per_field (ops : List BBSetOp) (s : BBState)
    (d : BBDev) (n : Nat) (out : List Sample) :
    ((bb_applySets ops s).center = lastCenterVal ops s.center) ∧
    ((bb_applySets ops s).reflevel = lastReflevelVal ops s.reflevel) ∧
    ((bb_applySets ops s).decimation = lastDecimationVal ops s.decimation) ∧
    ((bb_applySets ops s).bandwidth = lastBandwidthVal ops s.bandwidth) ∧
    ((bb_applySets ops s).purge = lastPurgeVal ops s.purge) ∧
    ((bb_work d n (bb_applySets ops s) out).aborted = false →
      (bb_work d n (bb_applySets ops s) out).calls =
        (if (bb_applySets ops s).param_changed
         then bbCfgCalls (bb_applySets ops s) else []) ++
        [BBCall.getIQUnpacked n (lastPurgeVal ops s.purge)]) := by
  refine ⟨bb_applySets_center ops s, bb_applySets_reflevel ops s,
          bb_applySets_decimation ops s, bb_applySets_bandwidth ops s,
          bb_applySets_purge ops s, ?_⟩
  intro h
  rw [bb_work_aborted] at h
  rw [bb_work_calls, ← bb_applySets_purge ops s]
  by_cases hp : (bb_applySets ops s).param_changed <;>
    by_cases hB : (bb_configure d (bb_applySets ops s)).1
  · rw [hp, hB] at h
    simp at h
  · simp [hp, hB, bb_configure_snd_complete d _ (by simpa using hB), bbCfgCalls]
  · simp [hp]
  · simp [hp]

/-- C5 witness: a concrete setter sequence (two writes to `_center`, one to
`_purge`) merged into a clean state; the next hook invocation pushes the
second center value and uses the last purge flag. -/
theorem C5_witness :
    (bb_work
      { stConfigureIQCenter := 0, stConfigureRefLevel := 0, stConfigureIQ := 0,
        stConfigureIQDataType := 0, stInitiate := 0, stQueryIQParameters := 0,
        stGetIQUnpacked := 0, sampleRate := 40, actualBandwidth := 27,
        iq := fun _ => (0, 0) }
      3
      (bb_applySets
        [BBSetOp.opCenter 5, BBSetOp.opPurge true, BBSetOp.opCenter 7]
        { center := 100, reflevel := -20, decimation := 2, bandwidth := 50,
          purge := false, param_changed := false, buffer := none, len := 0 })
      []).calls =
      [BBCall.configureIQCenter 7, BBCall.configureRefLevel (-20),
       BBCall.configureIQ 2 50, BBCall.configureIQDataType, BBCall.initiate,
       BBCall.queryIQParameters, BBCall.getIQUnpacked 3 true] :=
  (C5_last_write_wins_per_field
      [BBSetOp.opCenter 5, BBSetOp.opPurge true, BBSetOp.opCenter 7]
      { center := 100, reflevel := -20, decimation := 2, bandwidth := 50,
        purge := false, param_changed := false, buffer := none, len := 0 }
      { stConfigureIQCenter := 0, stConfigureRefLevel := 0, stConfigureIQ := 0,
        stConfigureIQDataType := 0, stInitiate := 0, stQueryIQParameters := 0,
        stGetIQUnpacked := 0, sampleRate := 40, actualBandwidth := 27,
        iq := fun _ => (0, 0) }
      3 []).2.2.2.2.2 (by decide)

/-- C6: for each receiver: on a hook invocation that reaches the allocation
step, the transfer buffer is reallocated iff no buffer exists or the
requested count differs from the allocated length; the post-invocation
state holds a buffer of exactly the requested length (outside the
configure-abort path); and a second invocation with the same count and no
intervening setter performs no reallocation, no reconfiguration, and
leaves the dirty marker false. -/
theorem C6_realloc_iff_size_change :
    (∀ (d : BBDev) (n : Nat) (s : BBState) (out : List Sample),
      ((bb_work d n s out).reallocated =
        (!(s.param_changed && (bb_configure d s).1) &&
         (s.buffer.isNone || !(decide ((n : Int) = s.len))))) ∧
      ((bb_work d n s out).state =
        (if s.param_changed && (bb_configure d s).1 then s
         else { s with param_changed := false,
                       buffer := some (deviceSamples d.iq n), len := (n : Int) })) ∧
      (∀ d' out', (bb_work d n s out).aborted = false →
        ((bb_work d' n (bb_work d n s out).state out').reconfigured = false ∧
         (bb_work d' n (bb_work d n s out).state out').reallocated = false ∧
         ((bb_work d' n (bb_work d n s out).state out').state).param_changed = false))) ∧
    (∀ (d : SMDev) (n : Nat) (s : SMState) (out : List Sample),
      ((sm_work d n s out).reallocated =
        (!(s.param_changed && (sm_configure d s).1) &&
         (s.buffer.isNone || !(decide ((n : Int) = s.len))))) ∧
      ((sm_work d n s out).state =
        (if s.param_changed && (sm_configure d s).1 then s
         else { s with param_changed := false,
                       buffer := some (deviceSamples d.iq n), len := (n : Int) })) ∧
      (∀ d' out', (sm_work d n s out).aborted = false →
        ((sm_work d' n (sm_work d n s out).state out').reconfigured = false ∧
         (sm_work d' n (sm_work d n s out).state out').reallocated = false ∧
         ((sm_work d' n (sm_work d n s out).state out').state).param_changed = false))) ∧
    (∀ (d : SPDev) (n : Nat) (s : SPState) (out : List Sample),
      ((sp_work d n s out).reallocated =
        (!(s.param_changed && (sp_configure d s).1) &&
         (s.buffer.isNone || !(decide ((n : Int) = s.len))))) ∧
      ((sp_work d n s out).state =
        (if s.param_changed && (sp_configure d s).1 then s
         else { s with param_changed := false,
                       buffer := some (deviceSamples d.iq n), len := (n : Int) })) ∧
      (∀ d' out', (sp_work d n s out).aborted = false →
        ((sp_work d' n (sp_work d n s out).state out').reconfigured = false ∧
         (sp_work d' n (sp_work d n s out).state out').reallocated = false ∧
         ((sp_work d' n (sp_work d n s out).state out').state).param_changed = false))) := by
  refine ⟨fun d n s out => ⟨bb_work_reallocated d n s out, bb_work_state d n s out, ?_⟩,
          fun d n s out => ⟨sm_work_reallocated d n s out, sm_work_state d n s out, ?_⟩,
          fun d n s out => ⟨sp_work_reallocated d n s out, sp_work_state d n s out, ?_⟩⟩
  · intro d' out' h
    rw [bb_work_aborted] at h
    obtain ⟨h1, -⟩ := Bool.or_eq_false_iff.mp h
    have hs : (bb_work d n s out).state =
        { s with param_changed := false,
                 buffer := some (deviceSamples d.iq n), len := (n : Int) } := by
      rw [bb_work_state, h1]
      simp
    refine ⟨?_, ?_, ?_⟩
    · rw [bb_work_reconfigured, hs]
    · rw [bb_work_reallocated, hs]
      simp
    · rw [bb_work_state, hs]
      simp
  · intro d' out' h
    rw [sm_work_aborted] at h
    obtain ⟨h1, -⟩ := Bool.or_eq_false_iff.mp h
    have hs : (sm_work d n s out).state =
        { s with param_changed := false,
                 buffer := some (deviceSamples d.iq n), len := (n : Int) } := by
      rw [sm_work_state, h1]
      simp
    refine ⟨?_, ?_, ?_⟩
    · rw [sm_work_reconfigured, hs]
    · rw [sm_work_reallocated, hs]
      simp
    · rw [sm_work_state, hs]
      simp
  · intro d' out' h
    rw [sp_work_aborted] at h
    obtain ⟨h1, -⟩ := Bool.or_eq_false_iff.mp h
    have hs : (sp_work d n s out).state =
        { s with param_changed := false,
                 buffer := some (deviceSamples d.iq n), len := (n : Int) } := by
      rw [sp_work_state, h1]
      simp
    refine ⟨?_, ?_, ?_⟩
    · rw [sp_work_reconfigured, hs]
    · rw [sp_work_reallocated, hs]
      simp
    · rw [sp_work_state, hs]
      simp

/-- C6 witness: two consecutive bb hook invocations with count 2 on a fresh
dirty state and clean statuses: the second invocation reconfigures nothing,
reallocates nothing, and leaves the dirty marker false. -/
theorem C6_witness :
    (bb_work
      { stConfigureIQCenter := 0, stConfigureRefLevel := 0, stConfigureIQ := 0,
        stConfigureIQDataType := 0, stInitiate := 0, stQueryIQParameters := 0,
        stGetIQUnpacked := 0, sampleRate := 40, actualBandwidth := 27,
        iq := fun _ => (1, 1) }
      2
      ((bb_work
        { stConfigureIQCenter := 0, stConfigureRefLevel := 0, stConfigureIQ := 0,
          stConfigureIQDataType := 0, stInitiate := 0, stQueryIQParameters := 0,
          stGetIQUnpacked := 0, sampleRate := 40, actualBandwidth := 27,
          iq := fun _ => (0, 0) }
        2
        { center := 100, reflevel := -20, decimation := 2, bandwidth := 50,
          purge := false, param_changed := true, buffer := none, len := 0 }
        [(9, 9), (9, 9)]).state)
      [(8, 8), (8, 8)]).reconfigured = false ∧
    (bb_work
      { stConfigureIQCenter := 0, stConfigureRefLevel := 0, stConfigureIQ := 0,
        stConfigureIQDataType := 0, stInitiate := 0, stQueryIQParameters := 0,
        stGetIQUnpacked := 0, sampleRate := 40, actualBandwidth := 27,
        iq := fun _ => (1, 1) }
      2
      ((bb_work
        { stConfigureIQCenter := 0, stConfigureRefLevel := 0, stConfigureIQ := 0,
          stConfigureIQDataType := 0, stInitiate := 0, stQueryIQParameters := 0,
          stGetIQUnpacked := 0, sampleRate := 40, actualBandwidth := 27,
          iq := fun _ => (0, 0) }
        2
        { center := 100, reflevel := -20, decimation := 2, bandwidth := 50,
          purge := false, param_changed := true, buffer := none, len := 0 }
        [(9, 9), (9, 9)]).state)
      [(8, 8), (8, 8)]).reallocated = false ∧
    ((bb_work
      { stConfigureIQCenter := 0, stConfigureRefLevel := 0, stConfigureIQ := 0,
        stConfigureIQDataType := 0, stInitiate := 0, stQueryIQParameters := 0,
        stGetIQUnpacked := 0, sampleRate := 40, actualBandwidth := 27,
        iq := fun _ => (1, 1) }
      2
      ((bb_work
        { stConfigureIQCenter := 0, stConfigureRefLevel := 0, stConfigureIQ := 0,
          stConfigureIQDataType := 0, stInitiate := 0, stQueryIQParameters := 0,
          stGetIQUnpacked := 0, sampleRate := 40, actualBandwidth := 27,
          iq := fun _ => (0, 0) }
        2
        { center := 100, reflevel := -20, decimation := 2, bandwidth := 50,
          purge := false, param_changed := true, buffer := none, len := 0 }
        [(9, 9), (9, 9)]).state)
      [(8, 8), (8, 8)]).state).param_changed = false :=
  (C6_realloc_iff_size_change.1
      { stConfigureIQCenter := 0, stConfigureRefLevel := 0, stConfigureIQ := 0,
        stConfigureIQDataType := 0, stInitiate := 0, stQueryIQParameters := 0,
        stGetIQUnpacked := 0, sampleRate := 40, actualBandwidth := 27,
        iq := fun _ => (0, 0) }
      2
      { center := 100, reflevel := -20, decimation := 2, bandwidth := 50,
        purge := false, param_changed := true, buffer := none, len := 0 }
      [(9, 9), (9, 9)]).2.2
      { stConfigureIQCenter := 0, stConfigureRefLevel := 0, stConfigureIQ := 0,
        stConfigureIQDataType := 0, stInitiate := 0, stQueryIQParameters := 0,
        stGetIQUnpacked := 0, sampleRate := 40, actualBandwidth := 27,
        iq := fun _ => (1, 1) }
      [(8, 8), (8, 8)] (by decide)

/-- C7: for every adapter, a completed construction leaves the dirty marker
true, and a hook invocation on a dirty state performs the device
reconfiguration and does so before issuing its transfer call (in the trace,
no transfer call appears before the reconfiguration's streaming initiation
or first parameter push). -/
theorem C7_first_invocation_reconfigures :
    (∀ dc c r dec bw p s, bb_construct dc c r dec bw p = some s →
        s.param_changed = true) ∧
    (∀ dc c r a dec sw p bw s, sm_construct dc c r a dec sw p bw = some s →
        s.param_changed = true) ∧
    (∀ dc r a c dec sw bw p s, sp_construct dc r a c dec sw bw p = some s →
        s.param_changed = true) ∧
    (∀ dc c sr lv io qo s, vsg_construct dc c sr lv io qo = some s →
        s.param_changed = true) ∧
    (∀ (d : BBDev) (n : Nat) (s : BBState) (out : List Sample),
        s.param_changed = true →
        (bb_work d n s out).reconfigured = true ∧
        bb_cfgBeforeTransfer (bb_work d n s out).calls = true) ∧
    (∀ (d : SMDev) (n : Nat) (s : SMState) (out : List Sample),
        s.param_changed = true →
        (sm_work d n s out).reconfigured = true ∧
        sm_cfgBeforeTransfer (sm_work d n s out).calls = true) ∧
    (∀ (d : SPDev) (n : Nat) (s : SPState) (out : List Sample),
        s.param_changed = true →
        (sp_work d n s out).reconfigured = true ∧
        sp_cfgBeforeTransfer (sp_work d n s out).calls = true) ∧
    (∀ (d : VSGDev) (n : Nat) (s : VSGState) (inBuf : List Sample),
        s.param_changed = true →
        (vsg_work d n s inBuf).reconfigured = true ∧
        vsg_cfgBeforeTransfer (vsg_work d n s inBuf).calls = true) := by
  refine ⟨?_, ?_, ?_, ?_, ?_, ?_, ?_, ?_⟩
  · intro dc c r dec bw p s h
    unfold bb_construct at h
    split_ifs at h
    injection h with h'
    subst h'
    rfl
  · intro dc c r a dec sw p bw s h
    unfold sm_construct at h
    split_ifs at h
    injection h with h'
    subst h'
    rfl
  · intro dc r a c dec sw bw p s h
    unfold sp_construct at h
    split_ifs at h
    injection h with h'
    subst h'
    rfl
  · intro dc c sr lv io qo s h
    unfold vsg_construct at h
    split_ifs at h
    injection h with h'
    subst h'
    rfl
  · intro d n s out hp
    refine ⟨by rw [bb_work_reconfigured]; exact hp, ?_⟩
    rw [bb_work_calls, hp]
    by_cases hB : (bb_configure d s).1
    · simp [hB, bb_configure_trace_no_transfer]
    · simp [hB, bb_configure_snd_complete d s (by simpa using hB)]
      simp [bbCfgCalls, bb_cfgBeforeTransfer, bb_isTransfer, bb_isInitiate]
  · intro d n s out hp
    refine ⟨by rw [sm_work_reconfigured]; exact hp, ?_⟩
    rw [sm_work_calls, hp]
    by_cases hB : (sm_configure d s).1
    · simp [hB, sm_configure_trace_no_transfer]
    · simp [hB, sm_configure_snd_complete d s (by simpa using hB)]
      simp [sm_cfgBeforeTransfer, sm_isTransfer, sm_isInitiate]
  · intro d n s out hp
    refine ⟨by rw [sp_work_reconfigured]; exact hp, ?_⟩
    rw [sp_work_calls, hp]
    by_cases hB : (sp_configure d s).1
    · simp [hB, sp_configure_trace_no_transfer]
    · simp [hB, sp_configure_snd_complete d s (by simpa using hB)]
      simp [sp_cfgBeforeTransfer, sp_isTransfer, sp_isInitiate]
  · intro d n s inBuf hp
    refine ⟨by rw [vsg_work_reconfigured]; exact hp, ?_⟩
    rw [vsg_work_calls, hp]
    by_cases hB : (vsg_configure d s).1
    · simp [hB, vsg_configure_trace_no_transfer]
    · simp [hB, vsg_configure_snd_complete d s (by simpa using hB)]
      simp [vsg_cfgBeforeTransfer, vsg_isTransfer, vsg_isCfgPush]

/-- C7 witness: a concrete bb construction with clean statuses yields a
state whose dirty marker is true, and the first hook invocation on it
reconfigures with the initiation call preceding the transfer call. -/
theorem C7_witness :
    ((bb_construct { stOpenDevice := 0, stGetSerialNumber := 0 } 100 (-20) 2 50 false =
        some (bb_init 100 (-20) 2 50 false)) ∧
     (bb_init 100 (-20) 2 50 false).param_changed = true) ∧
    ((bb_work
        { stConfigureIQCenter := 0, stConfigureRefLevel := 0, stConfigureIQ := 0,
          stConfigureIQDataType := 0, stInitiate := 0, stQueryIQParameters := 0,
          stGetIQUnpacked := 0, sampleRate := 40, actualBandwidth := 27,
          iq := fun _ => (0, 0) }
        1 (bb_init 100 (-20) 2 50 false) [(0, 0)]).reconfigured = true ∧
     bb_cfgBeforeTransfer
       (bb_work
         { stConfigureIQCenter := 0, stConfigureRefLevel := 0, stConfigureIQ := 0,
           stConfigureIQDataType := 0, stInitiate := 0, stQueryIQParameters := 0,
           stGetIQUnpacked := 0, sampleRate := 40, actualBandwidth := 27,
           iq := fun _ => (0, 0) }
         1 (bb_init 100 (-20) 2 50 false) [(0, 0)]).calls = true) :=
  ⟨⟨rfl,
    C7_first_invocation_reconfigures.1
      { stOpenDevice := 0, stGetSerialNumber := 0 } 100 (-20) 2 50 false
      (bb_init 100 (-20) 2 50 false) rfl⟩,
   C7_first_invocation_reconfigures.2.2.2.2.1
      { stConfigureIQCenter := 0, stConfigureRefLevel := 0, stConfigureIQ := 0,
        stConfigureIQDataType := 0, stInitiate := 0, stQueryIQParameters := 0,
        stGetIQUnpacked := 0, sampleRate := 40, actualBandwidth := 27,
        iq := fun _ => (0, 0) }
      1 (bb_init 100 (-20) 2 50 false) [(0, 0)] rfl⟩

/-- C9 counterexample: the claim asserts the mutual-exclusion lock is held
around the transfer hook's whole read-test-clear sequence on the dirty
marker; but in `bb_series_impl::work` both the dirty-marker test (line 140)
and the clear (line 142) execute with the mutex free, so the universally
quantified lock condition fails on `bb_work_steps`. -/
theorem C9_counterexample :
    ¬ (∀ st ∈ bb_work_steps,
         (st.kind = StepKind.readDirty ∨ st.kind = StepKind.clearDirty) →
         st.lockHeld = true) := by
  decide

/-- C9 amended: in every adapter's transfer hook the lock is held exactly
for the configure body (the parameter pushes); the dirty-marker read and
clear, the buffer management, and the blocking transfer run with the mutex
free; setter bodies run entirely under the lock. -/
theorem C9_amended_lock_scopes :
    (bb_work_steps.all (fun st =>
        if st.kind = StepKind.pushParams then st.lockHeld else !st.lockHeld) = true) ∧
    (sm_work_steps.all (fun st =>
        if st.kind = StepKind.pushParams then st.lockHeld else !st.lockHeld) = true) ∧
    (sp_work_steps.all (fun st =>
        if st.kind = StepKind.pushParams then st.lockHeld else !st.lockHeld) = true) ∧
    (vsg_work_steps.all (fun st =>
        if st.kind = StepKind.pushParams then st.lockHeld else !st.lockHeld) = true) ∧
    ((bb_set_center_steps ++ bb_set_reflevel_steps ++ bb_set_decimation_steps ++
      bb_set_bandwidth_steps ++ bb_set_purge_steps ++
      sm_set_center_steps ++ sm_set_reflevel_steps ++ sm_set_atten_steps ++
      sm_set_decimation_steps ++ sm_set_bandwidth_steps ++ sm_set_swfilter_steps ++
      sm_set_purge_steps ++
      sp_set_center_steps ++ sp_set_reflevel_steps ++ sp_set_atten_steps ++
      sp_set_decimation_steps ++ sp_set_bandwidth_steps ++ sp_set_swfilter_steps ++
      sp_set_purge_steps ++
      vsg_set_center_steps ++ vsg_set_level_steps ++ vsg_set_samplerate_steps ++
      vsg_set_ioffset_steps ++ vsg_set_qoffset_steps).all
        (fun st => st.lockHeld) = true) := by
  decide

/-- C10: the generator's transfer buffer pointer stays null for the whole
instance lifetime — construction initialises it to null and no reachable
sequence of setter calls and hook invocations ever allocates it — and a
completing hook invocation hands the runtime input buffer itself to the
device submission call (no intermediate copy). -/
theorem C10_vsg_buffer_never_allocated :
    (∀ dc c sr lv io qo s, vsg_construct dc c sr lv io qo = some s →
        s.buffer = none ∧ ∀ ops, (vsg_run ops s).buffer = none) ∧
    (∀ (d : VSGDev) (n : Nat) (s : VSGState) (inBuf : List Sample),
        (vsg_work d n s inBuf).aborted = false →
        (vsg_work d n s inBuf).calls =
          (if s.param_changed then (vsg_configure d s).2 else []) ++
          [VSGCall.submitIQ inBuf n, VSGCall.flush]) := by
  constructor
  · intro dc c sr lv io qo s h
    unfold vsg_construct at h
    split_ifs at h
    injection h with h'
    subst h'
    exact ⟨rfl, fun ops => by rw [vsg_run_buffer]; rfl⟩
  · intro d n s inBuf h
    rw [vsg_work_aborted] at h
    rw [vsg_work_calls, h]
    simp

/-- C10 witness: a concrete constructed generator state has a null buffer,
keeps it null across a setter-and-hook lifetime, and a hook invocation
submits the exact runtime input buffer. -/
theorem C10_witness :
    ((vsg_init 1000 50 (-10) 1 2).buffer = none ∧
     (vsg_run
        [VSGOp.opSetCenter 2000,
         VSGOp.opWork
           { stSetFrequency := 0, stSetSampleRate := 0, stSetLevel := 0,
             stSetIQOffset := 0, stGetFrequency := 0, stGetSampleRate := 0,
             stGetLevel := 0, stGetIQOffset := 0, actualFrequency := 0,
             actualSampleRate := 0, actualLevel := 0, actualIOffset := 0,
             actualQOffset := 0, stSubmitIQ := 0, stFlush := 0 }
           2 [(1, 1), (2, 2)]]
        (vsg_init 1000 50 (-10) 1 2)).buffer = none) ∧
    (vsg_work
       { stSetFrequency := 0, stSetSampleRate := 0, stSetLevel := 0,
         stSetIQOffset := 0, stGetFrequency := 0, stGetSampleRate := 0,
         stGetLevel := 0, stGetIQOffset := 0, actualFrequency := 0,
         actualSampleRate := 0, actualLevel := 0, actualIOffset := 0,
         actualQOffset := 0, stSubmitIQ := 0, stFlush := 0 }
       2
       { center := 1000, samplerate := 50, level := -10, ioffset := 0,
         qoffset := 0, param_changed := false, buffer := none, len := 0 }
       [(1, 1), (2, 2)]).calls =
      [VSGCall.submitIQ [(1, 1), (2, 2)] 2, VSGCall.flush] :=
  ⟨(fun h => ⟨h.1, h.2 [VSGOp.opSetCenter 2000,
      VSGOp.opWork
        { stSetFrequency := 0, stSetSampleRate := 0, stSetLevel := 0,
          stSetIQOffset := 0, stGetFrequency := 0, stGetSampleRate := 0,
          stGetLevel := 0, stGetIQOffset := 0, actualFrequency := 0,
          actualSampleRate := 0, actualLevel := 0, actualIOffset := 0,
          actualQOffset := 0, stSubmitIQ := 0, stFlush := 0 }
        2 [(1, 1), (2, 2)]]⟩)
    (C10_vsg_buffer_never_allocated.1
      { stOpenDevice := 0, stGetSerialNumber := 0 } 1000 50 (-10) 1 2
      (vsg_init 1000 50 (-10) 1 2) rfl),
   C10_vsg_buffer_never_allocated.2
      { stSetFrequency := 0, stSetSampleRate := 0, stSetLevel := 0,
        stSetIQOffset := 0, stGetFrequency := 0, stGetSampleRate := 0,
        stGetLevel := 0, stGetIQOffset := 0, actualFrequency := 0,
        actualSampleRate := 0, actualLevel := 0, actualIOffset := 0,
        actualQOffset := 0, stSubmitIQ := 0, stFlush := 0 }
      2
      { center := 1000, samplerate := 50, level := -10, ioffset := 0,
        qoffset := 0, param_changed := false, buffer := none, len := 0 }
      [(1, 1), (2, 2)] (by decide)⟩
